import Mathlib

/-!
Shallow embedding of the Circles address-resolution and activity-classification
engine of this repository, together with proofs about it.

Namespaces:
* `Circles`    — shared data model and helper functions (profiles, events,
  JavaScript-style string/number coercions) used by both variants of
  `circles-lookup`.
* `CirclesV2`  — the uncached variant of `circles-lookup` (the one that carries
  `confidenceScore` and the activity analysis `analyzeActivity`).
* `CirclesSrc` — `src/lib/circles-lookup.ts`: lookups wrapped in a
  production-only TTL cache, the batch/stream orchestrator, and an
  instrumentation of upstream HTTP calls.
* `SimpleCacheM` — `src/lib/simple-cache.ts`.

Upstream HTTP services are modelled as oracles in `Circles.Env`; each lookup
records the upstream calls it issues so that caching and cancellation
properties can be stated.
-/

namespace Circles

/-- ASCII lower-casing of a character, modelling JavaScript
`String.prototype.toLowerCase` on the ASCII addresses this code handles. -/
def lowerChar (c : Char) : Char :=
  if 65 ≤ c.toNat ∧ c.toNat ≤ 90 then Char.ofNat (c.toNat + 32) else c

/-- Models `s.toLowerCase()` (ASCII). -/
def jsToLower (s : String) : String := String.mk (s.data.map lowerChar)

/-- Models `s.startsWith(pat)`. -/
def jsStartsWith (s pat : String) : Bool := List.isPrefixOf pat.data s.data

def jsIncludesAux (pat : List Char) : List Char → Bool
  | [] => pat.isEmpty
  | c :: rest => List.isPrefixOf pat (c :: rest) || jsIncludesAux pat rest

/-- Models `s.includes(pat)`. -/
def jsIncludes (s pat : String) : Bool := jsIncludesAux pat.data s.data

/-- A JavaScript value sitting in a timestamp-like field: either a string or a
number. -/
inductive JsNum where
  | str (s : String)
  | num (n : Int)
  deriving DecidableEq, Repr

/-- JavaScript truthiness of a string-or-number value: `""` and `0` are falsy. -/
def JsNum.truthy : JsNum → Bool
  | .str s => s ≠ ""
  | .num n => n ≠ 0

def hexDigitVal (c : Char) : Option Nat :=
  if 48 ≤ c.toNat ∧ c.toNat ≤ 57 then some (c.toNat - 48)
  else if 97 ≤ c.toNat ∧ c.toNat ≤ 102 then some (c.toNat - 87)
  else if 65 ≤ c.toNat ∧ c.toNat ≤ 70 then some (c.toNat - 55)
  else none

def parseHexDigits : List Char → Option Nat → Option Nat
  | [], acc => acc
  | c :: rest, acc =>
    match hexDigitVal c with
    | some d => parseHexDigits rest (some (acc.getD 0 * 16 + d))
    | none => acc

/-- Models JavaScript `parseInt(s, 16)`: optional sign, optional `0x` prefix,
then the maximal run of leading hex digits; `none` models `NaN`. -/
def parseIntHex (s : String) : Option Int :=
  let cs := s.data.dropWhile (fun c => c.isWhitespace)
  let sc : Int × List Char :=
    match cs with
    | '-' :: rest => (-1, rest)
    | '+' :: rest => (1, rest)
    | _ => (1, cs)
  let cs2 : List Char :=
    match sc.2 with
    | '0' :: 'x' :: rest => rest
    | '0' :: 'X' :: rest => rest
    | _ => sc.2
  (parseHexDigits cs2 none).map (fun n => sc.1 * (n : Int))

/-- The timestamp extraction done in the lookup code:
`typeof x === "string" ? parseInt(x, 16) : x`; `none` models `NaN`. -/
def JsNum.toTs : JsNum → Option Int
  | .str s => parseIntHex s
  | .num n => some n

/-- Models `parseInt(x, 16)` applied to a string-or-number value (a number is
coerced to its decimal string first, as JavaScript does). -/
def JsNum.parseInt16 : JsNum → Option Int
  | .str s => parseIntHex s
  | .num n => parseIntHex (toString n)

/-- One entry of the `circles_events` RPC result.  The `values` sub-object of
the TypeScript shape is flattened into the individual optional fields this code
reads (`values.owner`, `values.safeAddress`, `values.truster`,
`values.trustee`, `values.timestamp`); `topTimestamp` is a top-level
`timestamp` property. `none` models an absent property. -/
structure CirclesEvent where
  event : Option String := none
  valuesOwner : Option String := none
  valuesSafeAddress : Option String := none
  valuesTruster : Option String := none
  valuesTrustee : Option String := none
  valuesTimestamp : Option JsNum := none
  topTimestamp : Option JsNum := none
  deriving DecidableEq, Repr

/-- A Circles profile; `name` is the existence signal checked by the code. -/
structure Profile where
  name : String
  description : Option String := none
  avatar : Option String := none
  deriving DecidableEq, Repr

/-- The JSON body answered by `GET /profiles/search?address=...`: a network or
non-2xx failure, a JSON array of profiles, a bare profile object, or any other
shape. -/
inductive ProfileResp where
  | fail
  | arr (ps : List Profile)
  | obj (p : Profile)
  | other
  deriving Repr

/-- The upstream services, as oracles.  `eventsRpc` returns `none` when the
HTTP call fails or the JSON-RPC envelope lacks a `result`; `mintable` returns
`none` when `circles_getMintableAmount` fails. -/
structure Env where
  profileSearch : String → ProfileResp
  eventsRpc : String → Option (List CirclesEvent)
  mintable : String → Option Int

/-- Result shape of the direct profile lookup. -/
structure DirectResult where
  exists_ : Bool
  profileData : Option Profile := none
  deriving DecidableEq, Repr

/-- Result shape of the signer-to-main-account lookup. -/
structure SignerResult where
  exists_ : Bool
  mainAddress : Option String := none
  profileData : Option Profile := none
  deriving DecidableEq, Repr

/-- `directCirclesProfileLookup`: parse the profile-search response, treating a
non-empty `name` (in the first array element, or in a bare object) as the
existence signal. -/
def directCirclesProfileLookup (env : Env) (address : String) : DirectResult :=
  match env.profileSearch address with
  | .fail => { exists_ := false }
  | .arr ps =>
    match ps with
    | p :: _ =>
      if p.name ≠ "" then { exists_ := true, profileData := some p }
      else { exists_ := false }
    | [] => { exists_ := false }
  | .obj p =>
    if p.name ≠ "" then { exists_ := true, profileData := some p }
    else { exists_ := false }
  | .other => { exists_ := false }

/-- Truthiness of an optional string (absent and `""` are falsy). -/
def truthyStr : Option String → Bool
  | some s => s ≠ ""
  | none => false

/-- Models `e.event?.startsWith(pat)` coerced to boolean. -/
def optStartsWith (o : Option String) (pat : String) : Bool :=
  match o with
  | some s => jsStartsWith s pat
  | none => false

/-- Models `e.event?.includes(pat)` coerced to boolean. -/
def optIncludes (o : Option String) (pat : String) : Bool :=
  match o with
  | some s => jsIncludes s pat
  | none => false

/-- Models `o?.toLowerCase() === a.toLowerCase()`. -/
def lowerEq (o : Option String) (a : String) : Bool :=
  match o with
  | some s => jsToLower s = jsToLower a
  | none => false

/-- The filter applied to events in the signer lookup: a `Safe_AddedOwner`
event whose `values.owner` equals the signer address case-insensitively. -/
def ownerEventFilter (signerAddress : String) (e : CirclesEvent) : Bool :=
  e.event == some "Safe_AddedOwner" && lowerEq e.valuesOwner signerAddress

/-- Walk the filtered `Safe_AddedOwner` events in order; skip events with a
falsy `values.safeAddress`; return the first Safe whose direct profile lookup
succeeds. -/
def findSafe (env : Env) : List CirclesEvent → SignerResult
  | [] => { exists_ := false }
  | e :: rest =>
    match e.valuesSafeAddress with
    | none => findSafe env rest
    | some sa =>
      if sa = "" then findSafe env rest
      else
        let p := directCirclesProfileLookup env sa
        if p.exists_ then
          { exists_ := true, mainAddress := some sa, profileData := p.profileData }
        else findSafe env rest

/-- `signerToMainAccountLookup` (uncached): fetch the signer's event log, keep
`Safe_AddedOwner` events naming it as owner, and probe each candidate Safe for
a profile in event order. -/
def signerToMainAccountLookup (env : Env) (signerAddress : String) : SignerResult :=
  match env.eventsRpc signerAddress with
  | none => { exists_ := false }
  | some evs => findSafe env (evs.filter (ownerEventFilter signerAddress))

/-- Avatar type determined from the event log. -/
inductive AvatarType where
  | human
  | organization
  | group
  deriving DecidableEq, Repr

/-- `registerEvent.values?.timestamp ? parseInt(registerEvent.values.timestamp, 16) : undefined`. -/
def signupTs (e : CirclesEvent) : Option Int :=
  match e.valuesTimestamp with
  | some v => if v.truthy then v.parseInt16 else none
  | none => none

/-- `true` when an event name marks an organization:
`e.event?.includes("Organization") || e.event === "CrcV2_RegisterOrganization"`. -/
def isOrgEvent (e : CirclesEvent) : Bool :=
  optIncludes e.event "Organization" || e.event == some "CrcV2_RegisterOrganization"

/-- The activity-relevant event filter of `analyzeActivity`. -/
def isActivityEvent (e : CirclesEvent) : Bool :=
  optStartsWith e.event "CrcV2_Transfer" || optStartsWith e.event "CrcV2_Stream" ||
    optStartsWith e.event "CrcV2_Trust" || e.event == some "CrcV2_RegisterHuman"

/-- Timestamp extraction of the `analyzeActivity` loop: prefer a truthy
`values.timestamp`, then a truthy top-level `timestamp`, else `0`; `none`
models `NaN` from a failed `parseInt`. -/
def eventTs (e : CirclesEvent) : Option Int :=
  match e.valuesTimestamp with
  | some v =>
    if v.truthy then v.toTs
    else
      match e.topTimestamp with
      | some w => if w.truthy then w.toTs else some 0
      | none => some 0
  | none =>
    match e.topTimestamp with
    | some w => if w.truthy then w.toTs else some 0
    | none => some 0

/-- `ts > bound`, false when `ts` models `NaN`. -/
def tsGt (ts : Option Int) (bound : Int) : Bool :=
  match ts with
  | some t => bound < t
  | none => false

/-- One entry of `debugData.addressChecks`. -/
structure AddressCheck where
  address : String
  directCheck : DirectResult
  signerCheck : SignerResult
  deriving DecidableEq, Repr

end Circles

namespace CirclesV2

open Circles

/-- Output of `analyzeActivity`. -/
structure ActivityAnalysis where
  activityScore : Nat
  recentActivityCount : Nat
  lastActivityTimestamp : Int
  isActiveByActivity : Bool
  shouldSkip : Bool
  skipReason : Option String := none
  deriving DecidableEq, Repr

/-- One step of the `analyzeActivity` loop over activity-relevant events,
carrying `(recentActivityCount, lastActivityTimestamp)`. -/
def actStep (thirtyDaysAgo : Int) (acc : Nat × Int) (e : CirclesEvent) : Nat × Int :=
  let ts := eventTs e
  let last : Int :=
    match ts with
    | some t => if acc.2 < t then t else acc.2
    | none => acc.2
  let recent : Nat := if tsGt ts thirtyDaysAgo then acc.1 + 1 else acc.1
  (recent, last)

/-- `analyzeActivity(events, address)`: organization short-circuit, then the
activity-relevant filter, the recent/last loop, the three-band score and the
three-way liveness test.  `now` is `Math.floor(Date.now() / 1000)`. -/
def analyzeActivity (now : Int) (events : List CirclesEvent) : ActivityAnalysis :=
  if events.isEmpty then
    { activityScore := 0, recentActivityCount := 0, lastActivityTimestamp := 0,
      isActiveByActivity := false, shouldSkip := false }
  else if 0 < (events.filter isOrgEvent).length then
    { activityScore := 0, recentActivityCount := 0, lastActivityTimestamp := 0,
      isActiveByActivity := false, shouldSkip := true, skipReason := some "organization" }
  else
    let activityEvents := events.filter isActivityEvent
    let thirtyDaysAgo := now - 30 * 24 * 60 * 60
    let ninetyDaysAgo := now - 90 * 24 * 60 * 60
    let rl := activityEvents.foldl (actStep thirtyDaysAgo) (0, 0)
    let activityScore :=
      min 30 (activityEvents.length / 10) + min 40 (rl.1 * 2) +
        (if thirtyDaysAgo < rl.2 then 30 else if ninetyDaysAgo < rl.2 then 15 else 0)
    let isActiveByActivity :=
      decide (50 < activityEvents.length) || decide (5 < rl.1) || decide (40 < activityScore)
    { activityScore := activityScore, recentActivityCount := rl.1,
      lastActivityTimestamp := rl.2, isActiveByActivity := isActiveByActivity,
      shouldSkip := false }

/-- Modelled from the spec: `activityScore = clamp(30 × min(1, total/10)) +
clamp(40 × min(1, recent/20)) + recency bonus (+30 within 30 days, +15 within
90 days, else 0)`.  With exact arithmetic the first band is `min 30 (3*total)`
and the second `min 40 (2*recent)`. -/
def specActivityScore (now : Int) (total recent : Nat) (last : Int) : Nat :=
  min 30 (3 * total) + min 40 (2 * recent) +
    (if now - 30 * 24 * 60 * 60 < last then 30
     else if now - 90 * 24 * 60 * 60 < last then 15 else 0)

/-- Count of activity-relevant events whose extracted timestamp lies strictly
within the last 30 days. -/
def recentCountSpec (thirtyDaysAgo : Int) (l : List CirclesEvent) : Nat :=
  (l.filter (fun e => tsGt (eventTs e) thirtyDaysAgo)).length

/-- Maximum extracted timestamp over activity-relevant events, starting from 0
and ignoring `NaN` extractions. -/
def lastTsSpec (l : List CirclesEvent) : Int :=
  (l.filterMap eventTs).foldl max 0

/-- The recency bonus band of the score. -/
def recencyBonus (now : Int) (last : Int) : Nat :=
  if now - 30 * 24 * 60 * 60 < last then 30
  else if now - 90 * 24 * 60 * 60 < last then 15 else 0

/-- `mintableAmount` for an address; every failure mode of the RPC call
returns `0n`. -/
def checkMintableAmount (env : Env) (address : String) : Int :=
  (env.mintable address).getD 0

/-- `AvatarInfo & ActivityAnalysis` returned by the enhanced
`checkActiveCirclesToken`. -/
structure AvatarInfoV2 where
  avatar : String
  tokenAddress : Option String := none
  avatarType : Option AvatarType := none
  circlesVersion : Option String := none
  signupTimestamp : Option Int := none
  mintableAmount : Option Int := none
  activityScore : Nat
  recentActivityCount : Nat
  lastActivityTimestamp : Int
  isActiveByActivity : Bool
  shouldSkip : Bool
  skipReason : Option String := none
  deriving DecidableEq, Repr

/-- `checkActiveCirclesToken` (enhanced variant): fetch the event log, run the
activity analysis, short-circuit organizations, then look for
`CrcV2_RegisterHuman` or any `CrcV2_` activity. -/
def checkActiveCirclesToken (env : Env) (now : Int) (address : String) : Option AvatarInfoV2 :=
  match env.eventsRpc address with
  | none => none
  | some evs =>
    if evs.isEmpty then none
    else
      let a := analyzeActivity now evs
      if a.shouldSkip then
        some { avatar := address, tokenAddress := none, avatarType := some .organization,
               circlesVersion := some "v2", mintableAmount := some 0,
               activityScore := a.activityScore, recentActivityCount := a.recentActivityCount,
               lastActivityTimestamp := a.lastActivityTimestamp,
               isActiveByActivity := a.isActiveByActivity,
               shouldSkip := a.shouldSkip, skipReason := a.skipReason }
      else
        match evs.find? (fun e => e.event == some "CrcV2_RegisterHuman") with
        | some regEvent =>
          let mintableAmount := checkMintableAmount env address
          let avatarType : AvatarType :=
            if evs.any (fun e => optIncludes e.event "Group") then .group
            else if evs.any (fun e => optIncludes e.event "Organization") then .organization
            else .human
          some { avatar := address, tokenAddress := some address,
                 avatarType := some avatarType, circlesVersion := some "v2",
                 signupTimestamp := signupTs regEvent,
                 mintableAmount := some mintableAmount,
                 activityScore := a.activityScore, recentActivityCount := a.recentActivityCount,
                 lastActivityTimestamp := a.lastActivityTimestamp,
                 isActiveByActivity := a.isActiveByActivity,
                 shouldSkip := a.shouldSkip, skipReason := a.skipReason }
        | none =>
          if evs.any (fun e => optStartsWith e.event "CrcV2_") then
            let mintableAmount := checkMintableAmount env address
            some { avatar := address, tokenAddress := some address,
                   avatarType := some .human, circlesVersion := some "v2",
                   signupTimestamp :=
                     match evs.find? (fun e => optStartsWith e.event "CrcV2_") with
                     | some e => signupTs e
                     | none => none,
                   mintableAmount := some mintableAmount,
                   activityScore := a.activityScore, recentActivityCount := a.recentActivityCount,
                   lastActivityTimestamp := a.lastActivityTimestamp,
                   isActiveByActivity := a.isActiveByActivity,
                   shouldSkip := a.shouldSkip, skipReason := a.skipReason }
          else none

/-- In this variant caching was removed:
`const checkActiveToken = checkActiveCirclesToken`. -/
def checkActiveToken (env : Env) (now : Int) (address : String) : Option AvatarInfoV2 :=
  checkActiveCirclesToken env now address

/-- `const checkDirectCirclesProfile = directCirclesProfileLookup`. -/
def checkDirectCirclesProfile (env : Env) (address : String) : DirectResult :=
  directCirclesProfileLookup env address

/-- `const checkSignerToMainAccount = signerToMainAccountLookup`. -/
def checkSignerToMainAccount (env : Env) (address : String) : SignerResult :=
  signerToMainAccountLookup env address

/-- `CirclesData` of the enhanced variant; absent optional keys are `none`. -/
structure CirclesDataV2 where
  isOnCircles : Bool
  mainAddress : Option String := none
  profileData : Option Profile := none
  signerAddress : Option String := none
  avatarInfo : Option AvatarInfoV2 := none
  isActiveV2 : Option Bool := none
  isActivelyEarning : Option Bool := none
  isActiveByActivity : Option Bool := none
  isTrustedByCurrentUser : Option Bool := none
  activityScore : Option Nat := none
  recentActivityCount : Option Nat := none
  lastActivityTimestamp : Option Int := none
  confidenceScore : Option Nat := none
  shouldSkip : Option Bool := none
  skipReason : Option String := none
  deriving DecidableEq, Repr

/-- `CirclesResult` of the enhanced variant. -/
structure CirclesResultV2 where
  circlesData : CirclesDataV2
  debugData : List AddressCheck
  deriving DecidableEq, Repr

/-- `!!(avatarInfo && avatarInfo.tokenAddress)`. -/
def avActiveV2 (avatarInfo : Option AvatarInfoV2) : Bool :=
  match avatarInfo with
  | some ai => truthyStr ai.tokenAddress
  | none => false

/-- `!!(avatarInfo && avatarInfo.mintableAmount && avatarInfo.mintableAmount > 0n)`. -/
def avEarning (avatarInfo : Option AvatarInfoV2) : Bool :=
  match avatarInfo with
  | some ai =>
    match ai.mintableAmount with
    | some m => decide (m ≠ 0) && decide (0 < m)
    | none => false
  | none => false

/-- `!!(avatarInfo && avatarInfo.isActiveByActivity)`. -/
def avActive (avatarInfo : Option AvatarInfoV2) : Bool :=
  match avatarInfo with
  | some ai => ai.isActiveByActivity
  | none => false

/-- The result object built when the direct strategy matches (both the
organization-skip and the normal return of that branch). -/
def mkDirectData (address : String) (direct : DirectResult)
    (avatarInfo : Option AvatarInfoV2) (debug : List AddressCheck) : CirclesResultV2 :=
  match avatarInfo with
  | some ai =>
    if ai.shouldSkip then
      { circlesData :=
          { isOnCircles := true, mainAddress := some address,
            profileData := direct.profileData, avatarInfo := some ai,
            isActiveV2 := some (avActiveV2 (some ai)),
            isActivelyEarning := some (avEarning (some ai)),
            isActiveByActivity := some (avActive (some ai)),
            shouldSkip := some true, skipReason := ai.skipReason,
            activityScore := some ai.activityScore,
            recentActivityCount := some ai.recentActivityCount,
            lastActivityTimestamp := some ai.lastActivityTimestamp,
            confidenceScore := some 95 },
        debugData := debug }
    else
      { circlesData :=
          { isOnCircles := true, mainAddress := some address,
            profileData := direct.profileData, avatarInfo := some ai,
            isActiveV2 := some (avActiveV2 (some ai)),
            isActivelyEarning := some (avEarning (some ai)),
            isActiveByActivity := some (avActive (some ai)),
            activityScore := some ai.activityScore,
            recentActivityCount := some ai.recentActivityCount,
            lastActivityTimestamp := some ai.lastActivityTimestamp,
            confidenceScore := some 95 },
        debugData := debug }
  | none =>
    { circlesData :=
        { isOnCircles := true, mainAddress := some address,
          profileData := direct.profileData, avatarInfo := none,
          isActiveV2 := some false, isActivelyEarning := some false,
          isActiveByActivity := some false, confidenceScore := some 95 },
      debugData := debug }

/-- The result object built when only the signer strategy matches. -/
def mkSignerData (address : String) (signer : SignerResult)
    (avatarInfo : Option AvatarInfoV2) (debug : List AddressCheck) : CirclesResultV2 :=
  match avatarInfo with
  | some ai =>
    if ai.shouldSkip then
      { circlesData :=
          { isOnCircles := true, mainAddress := signer.mainAddress,
            profileData := signer.profileData, signerAddress := some address,
            avatarInfo := some ai,
            isActiveV2 := some (avActiveV2 (some ai)),
            isActivelyEarning := some (avEarning (some ai)),
            isActiveByActivity := some (avActive (some ai)),
            shouldSkip := some true, skipReason := ai.skipReason,
            activityScore := some ai.activityScore,
            recentActivityCount := some ai.recentActivityCount,
            lastActivityTimestamp := some ai.lastActivityTimestamp,
            confidenceScore := some 85 },
        debugData := debug }
    else
      { circlesData :=
          { isOnCircles := true, mainAddress := signer.mainAddress,
            profileData := signer.profileData, signerAddress := some address,
            avatarInfo := some ai,
            isActiveV2 := some (avActiveV2 (some ai)),
            isActivelyEarning := some (avEarning (some ai)),
            isActiveByActivity := some (avActive (some ai)),
            activityScore := some ai.activityScore,
            recentActivityCount := some ai.recentActivityCount,
            lastActivityTimestamp := some ai.lastActivityTimestamp,
            confidenceScore := some 85 },
        debugData := debug }
  | none =>
    { circlesData :=
        { isOnCircles := true, mainAddress := signer.mainAddress,
          profileData := signer.profileData, signerAddress := some address,
          avatarInfo := none,
          isActiveV2 := some false, isActivelyEarning := some false,
          isActiveByActivity := some false, confidenceScore := some 85 },
      debugData := debug }

/-- The loop of `checkCirclesStatusWithDebug` over the candidate addresses,
accumulating `debugData.addressChecks`. -/
def checkLoop (env : Env) (now : Int) : List String → List AddressCheck → CirclesResultV2
  | [], debug => { circlesData := { isOnCircles := false }, debugData := debug }
  | address :: rest, debug =>
    let direct := checkDirectCirclesProfile env address
    let signer := checkSignerToMainAccount env address
    let debug2 := debug ++ [{ address := address, directCheck := direct, signerCheck := signer }]
    if direct.exists_ then
      mkDirectData address direct (checkActiveToken env now address) debug2
    else if signer.exists_ then
      let avatarInfo :=
        match signer.mainAddress with
        | some m => if m = "" then none else checkActiveToken env now m
        | none => none
      mkSignerData address signer avatarInfo debug2
    else
      checkLoop env now rest debug2

/-- `checkCirclesStatusWithDebug(ethAddresses)` (enhanced variant). -/
def checkCirclesStatusWithDebug (env : Env) (now : Int) (ethAddresses : List String) : CirclesResultV2 :=
  checkLoop env now ethAddresses []

/-- `checkCirclesStatus(ethAddresses)`. -/
def checkCirclesStatus (env : Env) (now : Int) (ethAddresses : List String) : CirclesDataV2 :=
  (checkCirclesStatusWithDebug env now ethAddresses).circlesData

end CirclesV2

namespace CirclesSrc

open Circles

/-- An upstream HTTP call made by `src/lib/circles-lookup.ts`. -/
inductive UpCall where
  | profileSearch (address : String)
  | eventsRpc (address : String)
  deriving DecidableEq, Repr

/-- `AvatarInfo` of `src/lib/circles-lookup.ts` (no mintable amount, no
activity analysis). -/
structure AvatarInfoSrc where
  avatar : String
  tokenAddress : Option String := none
  avatarType : Option AvatarType := none
  circlesVersion : Option String := none
  signupTimestamp : Option Int := none
  deriving DecidableEq, Repr

/-- In-memory state of the `unstable_cache` wrappers, one table per wrapped
function, keyed by the address argument, with the store timestamp. -/
structure Cache where
  directC : List (String × DirectResult × Int) := []
  signerC : List (String × SignerResult × Int) := []
  tokenC : List (String × Option AvatarInfoSrc × Int) := []
  trustC : List (String × List String × Int) := []

def emptyCache : Cache := {}

/-- Association-list lookup used by the cache tables. -/
def alook {α : Type} : List (String × α × Int) → String → Option (α × Int)
  | [], _ => none
  | (k, v, t) :: rest, key => if k = key then some (v, t) else alook rest key

/-- `directCirclesProfileLookup`, recording its upstream call. -/
def directLookupRaw (env : Env) (address : String) : DirectResult × List UpCall :=
  (directCirclesProfileLookup env address, [.profileSearch address])

/-- The cached `checkDirectCirclesProfile`: `unstable_cache` with
`revalidate: 86400` in production builds, the bare lookup otherwise. -/
def checkDirectCirclesProfile (env : Env) (isProd : Bool) (now : Int) (address : String)
    (c : Cache) : DirectResult × Cache × List UpCall :=
  if isProd then
    match alook c.directC address with
    | some vt =>
      if now - vt.2 < 86400 then (vt.1, c, [])
      else
        let r := directLookupRaw env address
        (r.1, { c with directC := (address, r.1, now) :: c.directC }, r.2)
    | none =>
      let r := directLookupRaw env address
      (r.1, { c with directC := (address, r.1, now) :: c.directC }, r.2)
  else
    let r := directLookupRaw env address
    (r.1, c, r.2)

/-- The candidate-Safe loop of the signer lookup; each probe goes through the
(possibly cached) `checkDirectCirclesProfile`. -/
def findSafeSrc (env : Env) (isProd : Bool) (now : Int) :
    List CirclesEvent → Cache → SignerResult × Cache × List UpCall
  | [], c => ({ exists_ := false }, c, [])
  | e :: rest, c =>
    match e.valuesSafeAddress with
    | none => findSafeSrc env isProd now rest c
    | some sa =>
      if sa = "" then findSafeSrc env isProd now rest c
      else
        let pr := checkDirectCirclesProfile env isProd now sa c
        if pr.1.exists_ then
          ({ exists_ := true, mainAddress := some sa, profileData := pr.1.profileData },
            pr.2.1, pr.2.2)
        else
          let r := findSafeSrc env isProd now rest pr.2.1
          (r.1, r.2.1, pr.2.2 ++ r.2.2)

/-- `signerToMainAccountLookup` of `src/lib/circles-lookup.ts`. -/
def signerToMainAccountLookupSrc (env : Env) (isProd : Bool) (now : Int)
    (signerAddress : String) (c : Cache) : SignerResult × Cache × List UpCall :=
  match env.eventsRpc signerAddress with
  | none => ({ exists_ := false }, c, [UpCall.eventsRpc signerAddress])
  | some evs =>
    let r := findSafeSrc env isProd now (evs.filter (ownerEventFilter signerAddress)) c
    (r.1, r.2.1, UpCall.eventsRpc signerAddress :: r.2.2)

/-- The cached `checkSignerToMainAccount` (`revalidate: 86400` in production). -/
def checkSignerToMainAccount (env : Env) (isProd : Bool) (now : Int)
    (signerAddress : String) (c : Cache) : SignerResult × Cache × List UpCall :=
  if isProd then
    match alook c.signerC signerAddress with
    | some vt =>
      if now - vt.2 < 86400 then (vt.1, c, [])
      else
        let r := signerToMainAccountLookupSrc env isProd now signerAddress c
        (r.1, { r.2.1 with signerC := (signerAddress, r.1, now) :: (r.2.1).signerC }, r.2.2)
    | none =>
      let r := signerToMainAccountLookupSrc env isProd now signerAddress c
      (r.1, { r.2.1 with signerC := (signerAddress, r.1, now) :: (r.2.1).signerC }, r.2.2)
  else
    signerToMainAccountLookupSrc env isProd now signerAddress c

/-- `checkActiveCirclesToken` of `src/lib/circles-lookup.ts`: look for a
`CrcV2_RegisterHuman` event, else fall back to any `CrcV2_` event. -/
def checkActiveCirclesTokenRaw (env : Env) (address : String) :
    Option AvatarInfoSrc × List UpCall :=
  (match env.eventsRpc address with
   | none => none
   | some evs =>
     if evs.isEmpty then none
     else
       match evs.find? (fun e => e.event == some "CrcV2_RegisterHuman") with
       | some regEvent =>
         let avatarType : AvatarType :=
           if evs.any (fun e => optIncludes e.event "Group") then .group
           else if evs.any (fun e => optIncludes e.event "Organization") then .organization
           else .human
         some { avatar := address, tokenAddress := some address,
                avatarType := some avatarType, circlesVersion := some "v2",
                signupTimestamp := signupTs regEvent }
       | none =>
         if evs.any (fun e => optStartsWith e.event "CrcV2_") then
           some { avatar := address, tokenAddress := some address,
                  avatarType := some AvatarType.human, circlesVersion := some "v2",
                  signupTimestamp :=
                    match evs.find? (fun e => optStartsWith e.event "CrcV2_") with
                    | some e => signupTs e
                    | none => none }
         else none,
   [UpCall.eventsRpc address])

/-- The cached `checkActiveToken` (`revalidate: 86400` in production). -/
def checkActiveToken (env : Env) (isProd : Bool) (now : Int) (address : String)
    (c : Cache) : Option AvatarInfoSrc × Cache × List UpCall :=
  if isProd then
    match alook c.tokenC address with
    | some vt =>
      if now - vt.2 < 86400 then (vt.1, c, [])
      else
        let r := checkActiveCirclesTokenRaw env address
        (r.1, { c with tokenC := (address, r.1, now) :: c.tokenC }, r.2)
    | none =>
      let r := checkActiveCirclesTokenRaw env address
      (r.1, { c with tokenC := (address, r.1, now) :: c.tokenC }, r.2)
  else
    let r := checkActiveCirclesTokenRaw env address
    (r.1, c, r.2)

/-- `getCurrentUserTrustList`: filter the viewer's event log for `CrcV2_Trust`
events naming it as truster and collect the lowercased trustee addresses (the
`Set` is modelled by first-occurrence deduplication); every failure mode
returns the empty set. -/
def getCurrentUserTrustList (env : Env) (currentUserAddress : String) :
    List String × List UpCall :=
  (match env.eventsRpc currentUserAddress with
   | none => []
   | some evs =>
     ((((evs.filter (fun e =>
            e.event == some "CrcV2_Trust" && lowerEq e.valuesTruster currentUserAddress)).filterMap
          (fun e => e.valuesTrustee.map jsToLower)).filter (fun s => s ≠ "")).eraseDups),
   [UpCall.eventsRpc currentUserAddress])

/-- The cached `getCurrentUserTrusts` (`revalidate: 3600` in production). -/
def getCurrentUserTrusts (env : Env) (isProd : Bool) (now : Int) (address : String)
    (c : Cache) : List String × Cache × List UpCall :=
  if isProd then
    match alook c.trustC address with
    | some vt =>
      if now - vt.2 < 3600 then (vt.1, c, [])
      else
        let r := getCurrentUserTrustList env address
        (r.1, { c with trustC := (address, r.1, now) :: c.trustC }, r.2)
    | none =>
      let r := getCurrentUserTrustList env address
      (r.1, { c with trustC := (address, r.1, now) :: c.trustC }, r.2)
  else
    let r := getCurrentUserTrustList env address
    (r.1, c, r.2)

/-- `CirclesData` of `src/lib/circles-lookup.ts`. -/
structure CirclesDataSrc where
  isOnCircles : Bool
  mainAddress : Option String := none
  profileData : Option Profile := none
  signerAddress : Option String := none
  avatarInfo : Option AvatarInfoSrc := none
  isActiveV2 : Option Bool := none
  isTrustedByCurrentUser : Option Bool := none
  deriving DecidableEq, Repr

/-- `CirclesResult` of `src/lib/circles-lookup.ts`. -/
structure CirclesResultSrc where
  circlesData : CirclesDataSrc
  debugData : List AddressCheck
  deriving DecidableEq, Repr

/-- `!!(avatarInfo && avatarInfo.tokenAddress)`. -/
def avTokenTruthy (avatarInfo : Option AvatarInfoSrc) : Bool :=
  match avatarInfo with
  | some ai => truthyStr ai.tokenAddress
  | none => false

/-- The loop of `checkCirclesStatusWithDebug` (src variant) over candidate
addresses, threading the cache and recording upstream calls. -/
def checkLoopSrc (env : Env) (isProd : Bool) (now : Int) :
    List String → List AddressCheck → Cache → CirclesResultSrc × Cache × List UpCall
  | [], debug, c => ({ circlesData := { isOnCircles := false }, debugData := debug }, c, [])
  | address :: rest, debug, c =>
    let d := checkDirectCirclesProfile env isProd now address c
    let s := checkSignerToMainAccount env isProd now address d.2.1
    let debug2 := debug ++ [{ address := address, directCheck := d.1, signerCheck := s.1 }]
    if d.1.exists_ then
      let av := checkActiveToken env isProd now address s.2.1
      ({ circlesData :=
           { isOnCircles := true, mainAddress := some address,
             profileData := d.1.profileData, avatarInfo := av.1,
             isActiveV2 := some (avTokenTruthy av.1) },
         debugData := debug2 },
        av.2.1, d.2.2 ++ s.2.2 ++ av.2.2)
    else if s.1.exists_ then
      let av :=
        match s.1.mainAddress with
        | some m => if m = "" then (none, s.2.1, []) else checkActiveToken env isProd now m s.2.1
        | none => (none, s.2.1, [])
      ({ circlesData :=
           { isOnCircles := true, mainAddress := s.1.mainAddress,
             profileData := s.1.profileData, signerAddress := some address,
             avatarInfo := av.1, isActiveV2 := some (avTokenTruthy av.1) },
         debugData := debug2 },
        av.2.1, d.2.2 ++ s.2.2 ++ av.2.2)
    else
      let r := checkLoopSrc env isProd now rest debug2 s.2.1
      (r.1, r.2.1, d.2.2 ++ s.2.2 ++ r.2.2)

/-- `checkCirclesStatusWithDebug(ethAddresses)` (src variant). -/
def checkCirclesStatusWithDebug (env : Env) (isProd : Bool) (now : Int)
    (ethAddresses : List String) (c : Cache) : CirclesResultSrc × Cache × List UpCall :=
  checkLoopSrc env isProd now ethAddresses [] c

end CirclesSrc

namespace CirclesSrc

open Circles

/-- A social-graph user as consumed by the orchestrators;
`verified_addresses?.eth_addresses` is collapsed into one optional list. -/
structure User where
  fid : Int
  username : String
  ethAddresses : Option (List String) := none
  deriving DecidableEq, Repr

/-- `user.verified_addresses?.eth_addresses && ...length > 0`. -/
def hasAddrs (u : User) : Bool :=
  match u.ethAddresses with
  | some l => !l.isEmpty
  | none => false

/-- One item yielded by `streamCirclesStatus`, with its progress counters. -/
structure StreamItem where
  fid : Int
  circlesData : CirclesDataSrc
  completed : Nat
  total : Nat
  deriving DecidableEq, Repr

/-- One generator segment: the upstream calls issued since the previous yield,
followed by the yielded item. -/
abbrev Seg := List UpCall × StreamItem

/-- Resolve one user inside a streaming batch and annotate the result with
`isTrustedByCurrentUser`. -/
def processUser (env : Env) (isProd : Bool) (now : Int) (trusts : List String)
    (u : User) (c : Cache) : (Int × CirclesDataSrc) × Cache × List UpCall :=
  let r := checkCirclesStatusWithDebug env isProd now (u.ethAddresses.getD []) c
  let data := r.1.circlesData
  let isTrusted :=
    data.isOnCircles && truthyStr data.mainAddress &&
      (match data.mainAddress with
       | some m => decide (jsToLower m ∈ trusts)
       | none => false)
  ((u.fid, { data with isTrustedByCurrentUser := some isTrusted }), r.2.1, r.2.2)

/-- `batch.map(async user => ...)` followed by `Promise.all`: the logically
concurrent resolutions of one wave, modelled in input order. -/
def processBatch (env : Env) (isProd : Bool) (now : Int) (trusts : List String) :
    List User → Cache → List (Int × CirclesDataSrc) × Cache × List UpCall
  | [], c => ([], c, [])
  | u :: rest, c =>
    let p := processUser env isProd now trusts u c
    let r := processBatch env isProd now trusts rest p.2.1
    (p.1 :: r.1, r.2.1, p.2.2 ++ r.2.2)

/-- Structural worker for the wave slicing; `fuel` bounds the recursion depth
and is never exhausted when it starts at the list length. -/
def chunksGo {α : Type} : Nat → List α → List (List α)
  | _, [] => []
  | 0, _ :: _ => []
  | fuel + 1, a :: rest => (a :: rest.take 7) :: chunksGo fuel (rest.drop 7)

/-- The `for (let i = 0; i < n; i += 8)` slicing into waves of size 8. -/
def chunks8 {α : Type} (l : List α) : List (List α) := chunksGo l.length l

/-- Run every wave in order, keeping each wave's yielded pairs together with
the upstream calls the wave issued. -/
def batchRuns (env : Env) (isProd : Bool) (now : Int) (trusts : List String) :
    List (List User) → Cache → List (List UpCall × List (Int × CirclesDataSrc)) × Cache
  | [], c => ([], c)
  | b :: rest, c =>
    let p := processBatch env isProd now trusts b c
    let r := batchRuns env isProd now trusts rest p.2.1
    ((p.2.2, p.1) :: r.1, r.2)

/-- Assign the `completed`/`total` progress counters to a run of yielded
`(fid, circlesData)` pairs, continuing from `done` completions. -/
def numberItems (total : Nat) : Nat → List (Int × CirclesDataSrc) → List StreamItem
  | _, [] => []
  | done, (f, d) :: rest =>
    { fid := f, circlesData := d, completed := done + 1, total := total } ::
      numberItems total (done + 1) rest

/-- Prepend calls to the first segment of a list of segments. -/
def withCallsFirst (k : List UpCall) : List Seg → List Seg
  | [] => []
  | (k0, it) :: rest => (k ++ k0, it) :: rest

/-- Turn the per-wave runs into generator segments: a wave's calls are issued
when the generator resumes to produce the wave's first yield. -/
def batchSegs (total : Nat) : Nat → List (List UpCall × List (Int × CirclesDataSrc)) → List Seg
  | _, [] => []
  | done, (k, pairs) :: rest =>
    withCallsFirst k ((numberItems total done pairs).map (fun it => (([] : List UpCall), it))) ++
      batchSegs total (done + pairs.length) rest

/-- The loop over the viewer's addresses: take the first address whose fetched
trust set is non-empty. -/
def trustLoop (env : Env) (isProd : Bool) (now : Int) :
    List String → Cache → List String × Cache × List UpCall
  | [], c => ([], c, [])
  | a :: rest, c =>
    let t := getCurrentUserTrusts env isProd now a c
    if !t.1.isEmpty then t
    else
      let r := trustLoop env isProd now rest t.2.1
      (r.1, r.2.1, t.2.2 ++ r.2.2)

/-- The `currentUserAddresses && currentUserAddresses.length > 0` guard around
the trust-list loop. -/
def viewerTrusts (env : Env) (isProd : Bool) (now : Int)
    (cua : Option (List String)) (c : Cache) : List String × Cache × List UpCall :=
  match cua with
  | some l => if !l.isEmpty then trustLoop env isProd now l c else ([], c, [])
  | none => ([], c, [])

/-- A whole generator run: its yield segments, plus the calls that would run
on the final pull past the last yield. -/
structure GenRun where
  segs : List Seg
  tailCalls : List UpCall
  deriving DecidableEq, Repr

/-- Attach calls that run before the first yield to the first segment; when
the generator yields nothing they run on the only (final) pull. -/
def attachFirst (k : List UpCall) : List Seg → GenRun
  | [] => { segs := [], tailCalls := k }
  | s :: rest => { segs := (k ++ s.1, s.2) :: rest, tailCalls := [] }

/-- `streamCirclesStatus(users, currentUserAddresses)` as a generator run:
fetch the viewer trust list, yield users without verified addresses first,
then process users with addresses in waves of 8.  The trust-list calls run on
the first pull, so they belong to the first segment. -/
def streamRun (env : Env) (isProd : Bool) (now : Int) (users : List User)
    (cua : Option (List String)) (c0 : Cache) : GenRun :=
  let t := viewerTrusts env isProd now cua c0
  let withA := users.filter hasAddrs
  let withoutA := users.filter (fun u => !hasAddrs u)
  let total := users.length
  let noSegs : List Seg :=
    (numberItems total 0 (withoutA.map (fun u => (u.fid, ({ isOnCircles := false } : CirclesDataSrc))))).map
      (fun it => (([] : List UpCall), it))
  let bruns := batchRuns env isProd now t.1 (chunks8 withA) t.2.1
  attachFirst t.2.2 (noSegs ++ batchSegs total withoutA.length bruns.1)

/-- The consumer loop of `circles-analyzer.tsx`: pull the next item (running
the generator up to its next yield), then check the abort signal; on abort the
just-received item is discarded and nothing further is pulled.  `ab i` is the
state of the signal when item `i` is received.  Returns the upstream calls
that were issued and the items actually processed. -/
def consumeGo (ab : Nat → Bool) (tail : List UpCall) :
    Nat → List Seg → List UpCall × List StreamItem
  | _, [] => (tail, [])
  | i, (k, it) :: rest =>
    if ab i then (k, [])
    else
      let r := consumeGo ab tail (i + 1) rest
      (k ++ r.1, it :: r.2)

/-- Consume a generator run with an abort signal. -/
def consume (ab : Nat → Bool) (r : GenRun) : List UpCall × List StreamItem :=
  consumeGo ab r.tailCalls 0 r.segs

end CirclesSrc

namespace SimpleCacheM

/-- `CacheEntry<T>` of `src/lib/simple-cache.ts`; `data := none` models a
stored JavaScript `null`. -/
structure CacheEntry (α : Type) where
  data : Option α
  timestamp : Int
  ttl : Int
  deriving DecidableEq, Repr

/-- `SimpleCache`, its `Map` modelled as an association list. -/
structure SimpleCache (α : Type) where
  cache : List (String × CacheEntry α)
  deriving DecidableEq, Repr

def lookupEntry {α : Type} : List (String × CacheEntry α) → String → Option (CacheEntry α)
  | [], _ => none
  | (k, e) :: rest, key => if k = key then some e else lookupEntry rest key

def eraseKey {α : Type} : List (String × CacheEntry α) → String → List (String × CacheEntry α)
  | [], _ => []
  | (k, e) :: rest, key =>
    if k = key then eraseKey rest key else (k, e) :: eraseKey rest key

/-- `set(key, data, ttlMs)`: store the entry (replacing any previous binding)
with the current time. -/
def SimpleCache.set {α : Type} (c : SimpleCache α) (key : String) (data : Option α)
    (ttlMs : Int) (now : Int) : SimpleCache α :=
  { cache := (key, { data := data, timestamp := now, ttl := ttlMs }) :: eraseKey c.cache key }

/-- `get(key)`: `null` for an absent entry; lazily evict and return `null`
when expired; otherwise return the stored data — which is itself `null` when a
`null` was stored. -/
def SimpleCache.get {α : Type} (c : SimpleCache α) (key : String) (now : Int) :
    Option α × SimpleCache α :=
  match lookupEntry c.cache key with
  | none => (none, c)
  | some e =>
    if e.ttl < now - e.timestamp then (none, { cache := eraseKey c.cache key })
    else (e.data, c)

/-- `getOrSet(key, fetcher, ttlMs)`.  The fetcher is modelled by the value
`fetched` it would resolve to; the returned `Nat` counts how many times the
fetcher was invoked (0 on a cache hit, 1 otherwise). -/
def SimpleCache.getOrSet {α : Type} (c : SimpleCache α) (key : String)
    (fetched : Option α) (ttlMs : Int) (now : Int) : Option α × SimpleCache α × Nat :=
  match (SimpleCache.get c key now).1 with
  | some v => (some v, (SimpleCache.get c key now).2, 0)
  | none => (fetched, SimpleCache.set (SimpleCache.get c key now).2 key fetched ttlMs now, 1)

/-- The key `key` can never serve a cache hit: `get` answers `null` at every
time. -/
def nullAt {α : Type} (c : SimpleCache α) (key : String) : Prop :=
  ∀ now : Int, (SimpleCache.get c key now).1 = none

end SimpleCacheM

namespace CirclesSrc

open Circles

/-- The yielded `(fid, circlesData)` pairs of a streaming run, in yield order:
users without verified addresses first, then the users with addresses in wave
order. -/
def streamPairs (env : Env) (isProd : Bool) (now : Int) (users : List User)
    (cua : Option (List String)) (c0 : Cache) : List (Int × CirclesDataSrc) :=
  let t := viewerTrusts env isProd now cua c0
  (users.filter (fun u => !hasAddrs u)).map
      (fun u => (u.fid, ({ isOnCircles := false } : CirclesDataSrc))) ++
    (((batchRuns env isProd now t.1 (chunks8 (users.filter hasAddrs)) t.2.1).1).map
        (fun b => b.2)).flatten

/-- The trust-edge set the orchestrator should end up with, stated from the
viewer-address list directly: the first fetched trust set that is non-empty,
else the empty set. -/
def trustSpecOf (env : Env) (cua : Option (List String)) : List String :=
  match cua with
  | some l =>
    (((l.map (fun a => (getCurrentUserTrustList env a).1)).find?
        (fun ts => !ts.isEmpty)).getD [])
  | none => []

/-- Every cached trust entry agrees with what the upstream fetch returns. -/
def trustInv (env : Env) (c : Cache) : Prop :=
  ∀ a v t, alook c.trustC a = some (v, t) → v = (getCurrentUserTrustList env a).1

/-- Every entry of a cache table holds the value `f` gives for its key and was
stored at time `t1`. -/
def tableInv {α : Type} (f : String → α) (t1 : Int) (tbl : List (String × α × Int)) : Prop :=
  ∀ a v t, alook tbl a = some (v, t) → v = f a ∧ t = t1

/-- All four cache tables agree with the (pure) uncached lookups and were
populated at time `t1`. -/
def cacheInv (env : Env) (t1 : Int) (c : Cache) : Prop :=
  tableInv (fun a => directCirclesProfileLookup env a) t1 c.directC ∧
  tableInv (fun a => signerToMainAccountLookup env a) t1 c.signerC ∧
  tableInv (fun a => (checkActiveCirclesTokenRaw env a).1) t1 c.tokenC ∧
  tableInv (fun a => (getCurrentUserTrustList env a).1) t1 c.trustC

/-- Table monotonicity: every key present stays present. -/
def tblMono {α : Type} (t1 t2 : List (String × α × Int)) : Prop :=
  ∀ x, alook t1 x ≠ none → alook t2 x ≠ none

/-- Cache monotonicity across all four tables. -/
def cacheMono (c c' : Cache) : Prop :=
  tblMono c.directC c'.directC ∧ tblMono c.signerC c'.signerC ∧
    tblMono c.tokenC c'.tokenC ∧ tblMono c.trustC c'.trustC

end CirclesSrc

namespace Inputs

open Circles CirclesV2 CirclesSrc

def now0 : Int := 20000000

/-- An activity-relevant trust event whose timestamp lies 200 days before
`now0`. -/
def trustEv : CirclesEvent :=
  { event := some "CrcV2_Trust", valuesTimestamp := some (.num 2720000) }

/-- 120 activity events, none of them in the last 30 days. -/
def evs120 : List CirclesEvent := List.replicate 120 trustEv

def orgEv : CirclesEvent := { event := some "CrcV2_RegisterOrganization" }

def xferEv : CirclesEvent :=
  { event := some "CrcV2_Transfer", valuesTimestamp := some (.num 19999999) }

def aliceP : Profile := { name := "Alice" }

def carolP : Profile := { name := "Carol" }

/-- An environment where every upstream call fails. -/
def env0 : Env :=
  { profileSearch := fun _ => .fail, eventsRpc := fun _ => none, mintable := fun _ => none }

/-- A `Safe_AddedOwner` event adding `0xa` as owner of Safe `0xc`. -/
def ownerEvA : CirclesEvent :=
  { event := some "Safe_AddedOwner", valuesOwner := some "0xa", valuesSafeAddress := some "0xc" }

/-- A `Safe_AddedOwner` event adding `0xB` (mixed case) as owner of Safe `0xc`. -/
def ownerEvB : CirclesEvent :=
  { event := some "Safe_AddedOwner", valuesOwner := some "0xB", valuesSafeAddress := some "0xc" }

/-- An environment where `0xa` has a direct profile (and also a signer path),
`0xb` has only a signer path to Safe `0xc`, and `0xc` has a profile. -/
def env1 : Env :=
  { profileSearch := fun a =>
      if a = "0xa" then .obj aliceP else if a = "0xc" then .arr [carolP] else .fail,
    eventsRpc := fun a =>
      if a = "0xa" then some [ownerEvA] else if a = "0xb" then some [ownerEvB] else none,
    mintable := fun _ => none }

def u1 : User := { fid := 1, username := "ann" }

def u2 : User := { fid := 2, username := "bud", ethAddresses := some [] }

def u3 : User := { fid := 3, username := "cy", ethAddresses := some ["0xz"] }

/-- An abort signal that is raised after the first item is received. -/
def abAfter1 : Nat → Bool := fun i => decide (1 ≤ i)

end Inputs
section ActivityTheorems

open Circles CirclesV2 Inputs

theorem filter_ne_nil_ne_nil {α : Type} (p : α → Bool) (l : List α)
    (h : l.filter p ≠ []) : l ≠ [] := by
  intro hl; subst hl; simp at h

/-- C3: any event list containing an organization-registration marker is
short-circuited to the all-zero, `shouldSkip` classification. -/
theorem claim3_org_short_circuit (now : Int) (evs : List Circles.CirclesEvent)
    (h : evs.filter Circles.isOrgEvent ≠ []) :
    CirclesV2.analyzeActivity now evs =
      { activityScore := 0, recentActivityCount := 0, lastActivityTimestamp := 0,
        isActiveByActivity := false, shouldSkip := true,
        skipReason := some "organization" } := by
  have hne : evs ≠ [] := filter_ne_nil_ne_nil _ _ h
  have hemp : evs.isEmpty = false := by
    cases evs with
    | nil => exact absurd rfl hne
    | cons a l => rfl
  have hlen : 0 < (evs.filter Circles.isOrgEvent).length := by
    cases hfe : evs.filter Circles.isOrgEvent with
    | nil => exact absurd hfe h
    | cons a l => simp
  unfold CirclesV2.analyzeActivity
  rw [hemp]
  simp [hlen]

/-- C3 witness: a concrete list holding an organization-registration event and
a transfer event. -/
theorem claim3_witness :
    CirclesV2.analyzeActivity Inputs.now0 [Inputs.orgEv, Inputs.xferEv] =
      { activityScore := 0, recentActivityCount := 0, lastActivityTimestamp := 0,
        isActiveByActivity := false, shouldSkip := true,
        skipReason := some "organization" } :=
  claim3_org_short_circuit Inputs.now0 [Inputs.orgEv, Inputs.xferEv] (by decide)

end ActivityTheorems

theorem tsGt_none (b : Int) : Circles.tsGt none b = false := rfl

theorem tsGt_some (b t : Int) : Circles.tsGt (some t) b = decide (b < t) := rfl

theorem if_lt_eq_max (a t : Int) : (if a < t then t else a) = max a t := by
  by_cases h : a < t
  · simp [h, max_eq_right (le_of_lt h)]
  · simp [h, max_eq_left (le_of_not_lt h)]

theorem actFold_eq (thirty : Int) (l : List Circles.CirclesEvent) :
    ∀ (r : Nat) (last : Int),
      l.foldl (CirclesV2.actStep thirty) (r, last) =
        (r + CirclesV2.recentCountSpec thirty l, (l.filterMap Circles.eventTs).foldl max last) := by
  induction l with
  | nil => intro r last; simp [CirclesV2.recentCountSpec]
  | cons e l ih =>
    intro r last
    simp only [List.foldl_cons, List.filterMap_cons]
    cases hts : Circles.eventTs e with
    | none =>
      simp only [CirclesV2.actStep, hts, tsGt_none, Bool.false_eq_true, if_false]
      rw [ih]
      simp [CirclesV2.recentCountSpec, List.filter_cons, hts, tsGt_none]
    | some t =>
      simp only [CirclesV2.actStep, hts, tsGt_some]
      rw [if_lt_eq_max]
      by_cases hgt : thirty < t
      · simp only [hgt, decide_True, if_true]
        rw [ih]
        have hcount : CirclesV2.recentCountSpec thirty (e :: l) =
            CirclesV2.recentCountSpec thirty l + 1 := by
          simp [CirclesV2.recentCountSpec, List.filter_cons, hts, tsGt_some, hgt]
        rw [hcount]
        simp only [Prod.mk.injEq]
        refine ⟨by omega, by simp [List.foldl_cons]⟩
      · simp only [hgt, decide_False, Bool.false_eq_true, if_false]
        rw [ih]
        have hcount : CirclesV2.recentCountSpec thirty (e :: l) =
            CirclesV2.recentCountSpec thirty l := by
          simp [CirclesV2.recentCountSpec, List.filter_cons, hts, tsGt_some, hgt]
        rw [hcount]
        simp only [Prod.mk.injEq]
        refine ⟨by simp, by simp [List.foldl_cons]⟩

/-- C2 (amended): for every non-empty event list without an organization
marker, `activityScore` is `min 30 (floor(total / 10)) + min 40 (2 * recent) +
recency bonus`, where `recent` counts activity-relevant events of the last 30
days and the recency bonus is 30/15/0; the volume band is NOT
`30 × min(1, total/10)`. -/
theorem claim2_activity_score (now : Int) (evs : List Circles.CirclesEvent)
    (h1 : evs ≠ []) (h2 : evs.filter Circles.isOrgEvent = []) :
    (CirclesV2.analyzeActivity now evs).shouldSkip = false ∧
    (CirclesV2.analyzeActivity now evs).recentActivityCount =
      CirclesV2.recentCountSpec (now - 30 * 24 * 60 * 60)
        (evs.filter Circles.isActivityEvent) ∧
    (CirclesV2.analyzeActivity now evs).lastActivityTimestamp =
      CirclesV2.lastTsSpec (evs.filter Circles.isActivityEvent) ∧
    (CirclesV2.analyzeActivity now evs).activityScore =
      min 30 ((evs.filter Circles.isActivityEvent).length / 10) +
        min 40 ((CirclesV2.analyzeActivity now evs).recentActivityCount * 2) +
        CirclesV2.recencyBonus now
          (CirclesV2.analyzeActivity now evs).lastActivityTimestamp := by
  have hemp : evs.isEmpty = false := by
    cases evs with
    | nil => exact absurd rfl h1
    | cons a l => rfl
  have horg : ¬ 0 < (evs.filter Circles.isOrgEvent).length := by
    rw [h2]; simp
  unfold CirclesV2.analyzeActivity
  rw [hemp]
  simp only [Bool.false_eq_true, if_false, horg]
  rw [actFold_eq (now - 30 * 24 * 60 * 60) (evs.filter Circles.isActivityEvent) 0 0]
  simp [CirclesV2.recencyBonus, CirclesV2.lastTsSpec]

/-- C2 witness: the amended score formula instantiated at the 120-event,
no-recent-activity scenario. -/
theorem claim2_witness :
    (CirclesV2.analyzeActivity Inputs.now0 Inputs.evs120).activityScore =
      min 30 ((Inputs.evs120.filter Circles.isActivityEvent).length / 10) +
        min 40 ((CirclesV2.analyzeActivity Inputs.now0 Inputs.evs120).recentActivityCount * 2) +
        CirclesV2.recencyBonus Inputs.now0
          (CirclesV2.analyzeActivity Inputs.now0 Inputs.evs120).lastActivityTimestamp :=
  (claim2_activity_score Inputs.now0 Inputs.evs120 (by decide) (by decide)).2.2.2

set_option maxRecDepth 40000 in
/-- C2 counterexample: an address with 120 activity events, none recent, last
activity 200 days ago, scores 12 in the code, while the spec formula gives
30. -/
theorem claim2_counterexample :
    (CirclesV2.analyzeActivity Inputs.now0 Inputs.evs120).activityScore = 12 ∧
    CirclesV2.specActivityScore Inputs.now0
        (Inputs.evs120.filter Circles.isActivityEvent).length
        (CirclesV2.analyzeActivity Inputs.now0 Inputs.evs120).recentActivityCount
        (CirclesV2.analyzeActivity Inputs.now0 Inputs.evs120).lastActivityTimestamp = 30 ∧
    (CirclesV2.analyzeActivity Inputs.now0 Inputs.evs120).activityScore ≠
      CirclesV2.specActivityScore Inputs.now0
        (Inputs.evs120.filter Circles.isActivityEvent).length
        (CirclesV2.analyzeActivity Inputs.now0 Inputs.evs120).recentActivityCount
        (CirclesV2.analyzeActivity Inputs.now0 Inputs.evs120).lastActivityTimestamp := by
  decide

theorem mkDirectData_fields (address : String) (d : Circles.DirectResult)
    (av : Option CirclesV2.AvatarInfoV2) (dbg : List Circles.AddressCheck) :
    (CirclesV2.mkDirectData address d av dbg).circlesData.isOnCircles = true ∧
    (CirclesV2.mkDirectData address d av dbg).circlesData.mainAddress = some address ∧
    (CirclesV2.mkDirectData address d av dbg).circlesData.signerAddress = none ∧
    (CirclesV2.mkDirectData address d av dbg).circlesData.confidenceScore = some 95 := by
  cases av with
  | none => simp [CirclesV2.mkDirectData]
  | some ai =>
    cases hsk : ai.shouldSkip <;> simp [CirclesV2.mkDirectData, hsk]

theorem mkSignerData_fields (address : String) (s : Circles.SignerResult)
    (av : Option CirclesV2.AvatarInfoV2) (dbg : List Circles.AddressCheck) :
    (CirclesV2.mkSignerData address s av dbg).circlesData.isOnCircles = true ∧
    (CirclesV2.mkSignerData address s av dbg).circlesData.mainAddress = s.mainAddress ∧
    (CirclesV2.mkSignerData address s av dbg).circlesData.signerAddress = some address ∧
    (CirclesV2.mkSignerData address s av dbg).circlesData.confidenceScore = some 85 := by
  cases av with
  | none => simp [CirclesV2.mkSignerData]
  | some ai =>
    cases hsk : ai.shouldSkip <;> simp [CirclesV2.mkSignerData, hsk]

theorem checkLoop_not_found (env : Circles.Env) (now : Int) :
    ∀ (addrs : List String) (dbg : List Circles.AddressCheck),
      (∀ b ∈ addrs, (Circles.directCirclesProfileLookup env b).exists_ = false ∧
          (Circles.signerToMainAccountLookup env b).exists_ = false) →
      (CirclesV2.checkLoop env now addrs dbg).circlesData = { isOnCircles := false } := by
  intro addrs
  induction addrs with
  | nil => intro dbg _; rfl
  | cons a rest ih =>
    intro dbg h
    have ha := h a (by simp)
    unfold CirclesV2.checkLoop
    simp only [CirclesV2.checkDirectCirclesProfile, CirclesV2.checkSignerToMainAccount,
      ha.1, ha.2, Bool.false_eq_true, if_false]
    exact ih _ (fun b hb => h b (by simp [hb]))

/-- C1: the direct strategy wins with confidence 95 and no signer address even
when the signer path would also succeed; the signer path alone resolves to the
first matching Safe with confidence 85; when neither strategy matches any
candidate address the result is not a member. -/
theorem claim1_resolution_strategies (env : Circles.Env) (now : Int) (a : String)
    (addrs : List String) :
    ((Circles.directCirclesProfileLookup env a).exists_ = true →
      (CirclesV2.checkCirclesStatusWithDebug env now [a]).circlesData.isOnCircles = true ∧
      (CirclesV2.checkCirclesStatusWithDebug env now [a]).circlesData.mainAddress = some a ∧
      (CirclesV2.checkCirclesStatusWithDebug env now [a]).circlesData.signerAddress = none ∧
      (CirclesV2.checkCirclesStatusWithDebug env now [a]).circlesData.confidenceScore = some 95) ∧
    ((Circles.directCirclesProfileLookup env a).exists_ = false →
      (Circles.signerToMainAccountLookup env a).exists_ = true →
      (CirclesV2.checkCirclesStatusWithDebug env now [a]).circlesData.isOnCircles = true ∧
      (CirclesV2.checkCirclesStatusWithDebug env now [a]).circlesData.mainAddress =
        (Circles.signerToMainAccountLookup env a).mainAddress ∧
      (CirclesV2.checkCirclesStatusWithDebug env now [a]).circlesData.signerAddress = some a ∧
      (CirclesV2.checkCirclesStatusWithDebug env now [a]).circlesData.confidenceScore = some 85) ∧
    ((∀ b ∈ addrs, (Circles.directCirclesProfileLookup env b).exists_ = false ∧
        (Circles.signerToMainAccountLookup env b).exists_ = false) →
      (CirclesV2.checkCirclesStatusWithDebug env now addrs).circlesData.isOnCircles = false) := by
  refine ⟨?_, ?_, ?_⟩
  · intro hd
    unfold CirclesV2.checkCirclesStatusWithDebug CirclesV2.checkLoop
    simp only [CirclesV2.checkDirectCirclesProfile, CirclesV2.checkSignerToMainAccount,
      hd, if_true]
    exact mkDirectData_fields a _ _ _
  · intro hd hs
    unfold CirclesV2.checkCirclesStatusWithDebug CirclesV2.checkLoop
    simp only [CirclesV2.checkDirectCirclesProfile, CirclesV2.checkSignerToMainAccount,
      hd, hs, Bool.false_eq_true, if_false, if_true]
    exact mkSignerData_fields a _ _ _
  · intro h
    have := checkLoop_not_found env now addrs [] h
    unfold CirclesV2.checkCirclesStatusWithDebug
    rw [this]

/-- C1 witness: in `env1`, `0xa` has both a direct profile and a signer path
and resolves directly with confidence 95; `0xb` resolves through its Safe with
confidence 85; `0xz` resolves to non-membership. -/
theorem claim1_witness :
    (Circles.signerToMainAccountLookup Inputs.env1 "0xa").exists_ = true ∧
    ((CirclesV2.checkCirclesStatusWithDebug Inputs.env1 0 ["0xa"]).circlesData.mainAddress = some "0xa" ∧
      (CirclesV2.checkCirclesStatusWithDebug Inputs.env1 0 ["0xa"]).circlesData.signerAddress = none ∧
      (CirclesV2.checkCirclesStatusWithDebug Inputs.env1 0 ["0xa"]).circlesData.confidenceScore = some 95) ∧
    ((CirclesV2.checkCirclesStatusWithDebug Inputs.env1 0 ["0xb"]).circlesData.mainAddress =
        (Circles.signerToMainAccountLookup Inputs.env1 "0xb").mainAddress ∧
      (CirclesV2.checkCirclesStatusWithDebug Inputs.env1 0 ["0xb"]).circlesData.signerAddress = some "0xb" ∧
      (CirclesV2.checkCirclesStatusWithDebug Inputs.env1 0 ["0xb"]).circlesData.confidenceScore = some 85) ∧
    (CirclesV2.checkCirclesStatusWithDebug Inputs.env1 0 ["0xz"]).circlesData.isOnCircles = false := by
  refine ⟨by decide, ?_, ?_, ?_⟩
  · have h := (claim1_resolution_strategies Inputs.env1 0 "0xa" []).1 (by decide)
    exact ⟨h.2.1, h.2.2.1, h.2.2.2⟩
  · have h := (claim1_resolution_strategies Inputs.env1 0 "0xb" []).2.1 (by decide) (by decide)
    exact ⟨h.2.1, h.2.2.1, h.2.2.2⟩
  · exact (claim1_resolution_strategies Inputs.env1 0 "0xz" ["0xz"]).2.2 (by decide)

theorem checkLoop_confidence (env : Circles.Env) (now : Int) :
    ∀ (addrs : List String) (dbg : List Circles.AddressCheck),
      ((CirclesV2.checkLoop env now addrs dbg).circlesData.isOnCircles =
        (CirclesV2.checkLoop env now addrs dbg).circlesData.confidenceScore.isSome) ∧
      ((CirclesV2.checkLoop env now addrs dbg).circlesData.confidenceScore = none ∨
        (CirclesV2.checkLoop env now addrs dbg).circlesData.confidenceScore = some 85 ∨
        (CirclesV2.checkLoop env now addrs dbg).circlesData.confidenceScore = some 95) := by
  intro addrs
  induction addrs with
  | nil => intro dbg; exact ⟨rfl, Or.inl rfl⟩
  | cons a rest ih =>
    intro dbg
    unfold CirclesV2.checkLoop
    by_cases hd : (CirclesV2.checkDirectCirclesProfile env a).exists_ = true
    · simp only [hd, if_true]
      have h := mkDirectData_fields a (CirclesV2.checkDirectCirclesProfile env a)
        (CirclesV2.checkActiveToken env now a)
        (dbg ++ [{ address := a, directCheck := CirclesV2.checkDirectCirclesProfile env a,
                   signerCheck := CirclesV2.checkSignerToMainAccount env a }])
      rw [h.1, h.2.2.2]
      exact ⟨rfl, Or.inr (Or.inr rfl)⟩
    · rw [Bool.not_eq_true] at hd
      simp only [hd, Bool.false_eq_true, if_false]
      by_cases hs : (CirclesV2.checkSignerToMainAccount env a).exists_ = true
      · simp only [hs, if_true]
        have h := mkSignerData_fields a (CirclesV2.checkSignerToMainAccount env a)
          (match (CirclesV2.checkSignerToMainAccount env a).mainAddress with
            | some m => if m = "" then none else CirclesV2.checkActiveToken env now m
            | none => none)
          (dbg ++ [{ address := a, directCheck := CirclesV2.checkDirectCirclesProfile env a,
                     signerCheck := CirclesV2.checkSignerToMainAccount env a }])
        rw [h.1, h.2.2.2]
        exact ⟨rfl, Or.inr (Or.inl rfl)⟩
      · rw [Bool.not_eq_true] at hs
        simp only [hs, Bool.false_eq_true, if_false]
        exact ih _

/-- C4 (amended): membership holds exactly when a confidence value is present,
and a present confidence is 85 or 95; a non-member result carries no
`confidenceScore` field at all (it is absent, not 0). -/
theorem claim4_confidence_invariant (env : Circles.Env) (now : Int) (addrs : List String) :
    ((CirclesV2.checkCirclesStatusWithDebug env now addrs).circlesData.isOnCircles =
      (CirclesV2.checkCirclesStatusWithDebug env now addrs).circlesData.confidenceScore.isSome) ∧
    ((CirclesV2.checkCirclesStatusWithDebug env now addrs).circlesData.confidenceScore = none ∨
      (CirclesV2.checkCirclesStatusWithDebug env now addrs).circlesData.confidenceScore = some 85 ∨
      (CirclesV2.checkCirclesStatusWithDebug env now addrs).circlesData.confidenceScore = some 95) :=
  checkLoop_confidence env now addrs []

/-- C4 counterexample: a resolution where nothing matches yields
`isOnCircles = false` with `confidenceScore` absent — not `some 0`. -/
theorem claim4_counterexample :
    (CirclesV2.checkCirclesStatusWithDebug Inputs.env0 0 ["0xa"]).circlesData.isOnCircles = false ∧
    (CirclesV2.checkCirclesStatusWithDebug Inputs.env0 0 ["0xa"]).circlesData.confidenceScore = none ∧
    (CirclesV2.checkCirclesStatusWithDebug Inputs.env0 0 ["0xa"]).circlesData.confidenceScore ≠ some 0 := by
  decide

section StreamLemmas

open CirclesSrc

theorem numberItems_length (total : Nat) :
    ∀ (d : Nat) (l : List (Int × CirclesDataSrc)),
      (numberItems total d l).length = l.length := by
  intro d l
  induction l generalizing d with
  | nil => rfl
  | cons p rest ih => simp [numberItems, ih]

theorem numberItems_append (total : Nat) :
    ∀ (l1 l2 : List (Int × CirclesDataSrc)) (d : Nat),
      numberItems total d (l1 ++ l2) =
        numberItems total d l1 ++ numberItems total (d + l1.length) l2 := by
  intro l1
  induction l1 with
  | nil => intro l2 d; simp [numberItems]
  | cons p rest ih =>
    intro l2 d
    simp only [List.cons_append, numberItems, List.length_cons, List.append_eq]
    rw [ih]
    have h : d + 1 + rest.length = d + (rest.length + 1) := by omega
    rw [h]

theorem numberItems_completed (total : Nat) :
    ∀ (l : List (Int × CirclesDataSrc)) (d : Nat),
      (numberItems total d l).map (fun it => it.completed) =
        List.range' (d + 1) l.length := by
  intro l
  induction l with
  | nil => intro d; rfl
  | cons p rest ih =>
    intro d
    simp only [numberItems, List.map_cons, List.length_cons, List.range'_succ]
    rw [ih]

theorem numberItems_total_all (total : Nat) :
    ∀ (l : List (Int × CirclesDataSrc)) (d : Nat),
      (numberItems total d l).all (fun it => it.total == total) = true := by
  intro l
  induction l with
  | nil => intro d; rfl
  | cons p rest ih =>
    intro d
    simp only [numberItems, List.all_cons, ih, Bool.and_true]
    simp

theorem numberItems_all_data (total : Nat) (q : CirclesDataSrc → Bool) :
    ∀ (l : List (Int × CirclesDataSrc)) (d : Nat),
      (numberItems total d l).all (fun it => q it.circlesData) =
        l.all (fun pr => q pr.2) := by
  intro l
  induction l with
  | nil => intro d; rfl
  | cons p rest ih =>
    intro d
    simp only [numberItems, List.all_cons, ih]

theorem withCallsFirst_items (k : List UpCall) (segs : List Seg) :
    (withCallsFirst k segs).map (fun s => s.2) = segs.map (fun s => s.2) := by
  cases segs with
  | nil => rfl
  | cons s rest => rfl

theorem attachFirst_items (k : List UpCall) (segs : List Seg) :
    (attachFirst k segs).segs.map (fun s => s.2) = segs.map (fun s => s.2) := by
  cases segs with
  | nil => rfl
  | cons s rest => rfl

theorem chunksGo_flatten {α : Type} :
    ∀ (n : Nat) (l : List α), l.length ≤ n → (chunksGo n l).flatten = l := by
  intro n
  induction n with
  | zero =>
    intro l h
    cases l with
    | nil => rfl
    | cons a rest => simp at h
  | succ n ih =>
    intro l h
    cases l with
    | nil => rfl
    | cons a rest =>
      simp only [chunksGo, List.flatten_cons]
      rw [ih (rest.drop 7) (by simp only [List.length_drop]; simp at h; omega)]
      simp [List.take_append_drop]

theorem chunks8_flatten {α : Type} (l : List α) : (chunks8 l).flatten = l :=
  chunksGo_flatten l.length l le_rfl

theorem processBatch_length (env : Circles.Env) (p : Bool) (now : Int)
    (tr : List String) :
    ∀ (b : List User) (c : Cache),
      (processBatch env p now tr b c).1.length = b.length := by
  intro b
  induction b with
  | nil => intro c; rfl
  | cons u rest ih => intro c; simp [processBatch, ih]

theorem batchRuns_pairs_length (env : Circles.Env) (p : Bool) (now : Int)
    (tr : List String) :
    ∀ (bs : List (List User)) (c : Cache),
      (((batchRuns env p now tr bs c).1.map (fun b => b.2)).flatten).length =
        bs.flatten.length := by
  intro bs
  induction bs with
  | nil => intro c; rfl
  | cons b rest ih =>
    intro c
    simp only [batchRuns, List.map_cons, List.flatten_cons, List.length_append]
    rw [processBatch_length, ih]

theorem length_filter_partition {α : Type} (p : α → Bool) :
    ∀ (l : List α), (l.filter p).length + (l.filter (fun a => !p a)).length = l.length := by
  intro l
  induction l with
  | nil => rfl
  | cons a rest ih =>
    by_cases h : p a = true
    · simp [List.filter_cons, h]; omega
    · rw [Bool.not_eq_true] at h
      simp [List.filter_cons, h]; omega

theorem batchSegs_items (total : Nat) :
    ∀ (bruns : List (List UpCall × List (Int × CirclesDataSrc))) (d : Nat),
      (batchSegs total d bruns).map (fun s => s.2) =
        numberItems total d ((bruns.map (fun b => b.2)).flatten) := by
  intro bruns
  induction bruns with
  | nil => intro d; rfl
  | cons b rest ih =>
    intro d
    simp only [batchSegs, List.map_append, withCallsFirst_items, List.map_map,
      List.map_cons, List.flatten_cons]
    rw [ih, numberItems_append]
    have hmap : (numberItems total d b.2).map
        ((fun (s : Seg) => s.2) ∘ (fun it => (([] : List UpCall), it))) =
        numberItems total d b.2 := by simp
    rw [hmap]

theorem streamRun_items (env : Circles.Env) (p : Bool) (now : Int) (users : List User)
    (cua : Option (List String)) (c0 : Cache) :
    (streamRun env p now users cua c0).segs.map (fun s => s.2) =
      numberItems users.length 0 (streamPairs env p now users cua c0) := by
  simp only [streamRun, streamPairs, attachFirst_items, List.map_append, List.map_map]
  rw [batchSegs_items, numberItems_append]
  have hmap : ∀ (l : List (Int × CirclesDataSrc)),
      (numberItems users.length 0 l).map
        ((fun (s : Seg) => s.2) ∘ (fun it => (([] : List UpCall), it))) =
        numberItems users.length 0 l := by
    intro l; simp
  rw [hmap]
  simp [List.length_map]

theorem streamPairs_length (env : Circles.Env) (p : Bool) (now : Int) (users : List User)
    (cua : Option (List String)) (c0 : Cache) :
    (streamPairs env p now users cua c0).length = users.length := by
  simp only [streamPairs, List.length_append, List.length_map]
  rw [batchRuns_pairs_length, chunks8_flatten]
  have h := length_filter_partition hasAddrs users
  omega

end StreamLemmas

/-- C5: a streaming run over N identities yields exactly N items; the
`completed` counters are exactly 1, 2, ..., N in yield order (strictly
increasing, ending at N); and every yielded `total` equals N. -/
theorem claim5_progress_monotonicity (env : Circles.Env) (p : Bool) (now : Int)
    (users : List CirclesSrc.User) (cua : Option (List String)) (c0 : CirclesSrc.Cache) :
    ((CirclesSrc.streamRun env p now users cua c0).segs.map (fun s => s.2)).length =
      users.length ∧
    ((CirclesSrc.streamRun env p now users cua c0).segs.map (fun s => s.2)).map
        (fun it => it.completed) = List.range' 1 users.length ∧
    ((CirclesSrc.streamRun env p now users cua c0).segs.map (fun s => s.2)).all
        (fun it => it.total == users.length) = true := by
  rw [streamRun_items]
  refine ⟨?_, ?_, ?_⟩
  · rw [numberItems_length, streamPairs_length]
  · rw [numberItems_completed, streamPairs_length]
  · exact numberItems_total_all users.length _ 0

theorem consumeGo_abort (ab : Nat → Bool) (tail : List CirclesSrc.UpCall) :
    ∀ (segs : List CirclesSrc.Seg) (m i : Nat),
      (∀ j, j < m → ab (i + j) = false) → ab (i + m) = true → m < segs.length →
      CirclesSrc.consumeGo ab tail i segs =
        (((segs.take (m + 1)).map (fun s => s.1)).flatten,
          (segs.map (fun s => s.2)).take m) := by
  intro segs
  induction segs with
  | nil => intro m i _ _ hlen; simp at hlen
  | cons s rest ih =>
    intro m i hlt habm hlen
    cases m with
    | zero =>
      have hab : ab i = true := by simpa using habm
      simp [CirclesSrc.consumeGo, hab]
    | succ m =>
      have hab : ab i = false := by
        have := hlt 0 (Nat.succ_pos m)
        simpa using this
      simp only [CirclesSrc.consumeGo, hab, Bool.false_eq_true, if_false]
      rw [ih m (i + 1)
        (fun j hj => by
          have := hlt (j + 1) (by omega)
          simpa [Nat.add_assoc, Nat.add_comm 1 j] using this)
        (by
          have h2 : i + 1 + m = i + (m + 1) := by omega
          rw [h2]; exact habm)
        (by simpa using hlen)]
      simp [List.take_succ_cons, List.map_cons]

/-- C6: once the cancellation signal is observed (first at item `m`), the
consumer stops: the upstream calls issued are exactly those of the segments up
to and including the wave segment in flight at cancellation — none of the later
segments or the final pull ever run — the item received at the cancellation
check is discarded, and the items processed are exactly the ones yielded
before cancellation, unaffected. -/
theorem claim6_cancellation (env : Circles.Env) (p : Bool) (now : Int)
    (users : List CirclesSrc.User) (cua : Option (List String)) (c0 : CirclesSrc.Cache)
    (ab : Nat → Bool) (m : Nat)
    (h1 : ∀ j, j < m → ab j = false) (h2 : ab m = true)
    (h3 : m < (CirclesSrc.streamRun env p now users cua c0).segs.length) :
    CirclesSrc.consume ab (CirclesSrc.streamRun env p now users cua c0) =
      ((((CirclesSrc.streamRun env p now users cua c0).segs.take (m + 1)).map
          (fun s => s.1)).flatten,
        (((CirclesSrc.streamRun env p now users cua c0).segs.map (fun s => s.2)).take m)) := by
  unfold CirclesSrc.consume
  exact consumeGo_abort ab _ _ m 0 (fun j hj => by simpa using h1 j hj)
    (by simpa using h2) h3

/-- C6 witness: with two no-address users and a signal raised after the first
item, the run is cut off after one processed item and no further calls. -/
theorem claim6_witness :
    CirclesSrc.consume Inputs.abAfter1
        (CirclesSrc.streamRun Inputs.env0 false 0 [Inputs.u1, Inputs.u2] none
          CirclesSrc.emptyCache) =
      ((((CirclesSrc.streamRun Inputs.env0 false 0 [Inputs.u1, Inputs.u2] none
            CirclesSrc.emptyCache).segs.take 2).map (fun s => s.1)).flatten,
        (((CirclesSrc.streamRun Inputs.env0 false 0 [Inputs.u1, Inputs.u2] none
            CirclesSrc.emptyCache).segs.map (fun s => s.2)).take 1)) :=
  claim6_cancellation Inputs.env0 false 0 [Inputs.u1, Inputs.u2] none
    CirclesSrc.emptyCache Inputs.abAfter1 1 (by decide) (by decide) (by decide)

theorem attachFirst_shape (kT : List CirclesSrc.UpCall)
    (items0 : List CirclesSrc.StreamItem) (bSegs : List CirclesSrc.Seg) :
    (((CirclesSrc.attachFirst kT
          ((items0.map (fun it => (([] : List CirclesSrc.UpCall), it))) ++ bSegs)).segs.take
        items0.length).map (fun s => s.2) = items0) ∧
    (∀ s ∈ ((CirclesSrc.attachFirst kT
          ((items0.map (fun it => (([] : List CirclesSrc.UpCall), it))) ++ bSegs)).segs.take
        items0.length).drop 1, s.1 = ([] : List CirclesSrc.UpCall)) ∧
    (0 < items0.length →
      ∃ it, (CirclesSrc.attachFirst kT
          ((items0.map (fun it => (([] : List CirclesSrc.UpCall), it))) ++ bSegs)).segs.take 1 =
        [(kT, it)]) := by
  cases items0 with
  | nil =>
    refine ⟨by simp, ?_, by simp⟩
    intro s hs
    simp at hs
  | cons it0 its =>
    simp only [List.map_cons, List.cons_append, CirclesSrc.attachFirst, List.length_cons,
      List.take_succ_cons, List.map_cons, List.append_nil]
    have htake : (its.map (fun it => (([] : List CirclesSrc.UpCall), it)) ++ bSegs).take
        its.length = its.map (fun it => (([] : List CirclesSrc.UpCall), it)) := by
      have hl : its.length = (its.map (fun it => (([] : List CirclesSrc.UpCall), it))).length := by
        simp
      rw [hl, List.take_left]
    rw [htake]
    refine ⟨?_, ?_, ?_⟩
    · simp
    · intro s hs
      simp only [List.drop_succ_cons, List.drop_zero] at hs
      rcases List.mem_map.mp hs with ⟨it, _, heq⟩
      rw [← heq]
    · intro _
      exact ⟨it0, by simp⟩

/-- C7 (amended): the identities without candidate addresses are yielded, with
`isOnCircles = false`, as the first block of the stream — strictly before every
network-dependent result — and no upstream calls run between those yields; the
only upstream activity that can precede the first yield is the viewer
trust-list fetch, which is issued on the first pull. -/
theorem claim7_fast_path (env : Circles.Env) (p : Bool) (now : Int)
    (users : List CirclesSrc.User) (cua : Option (List String)) (c0 : CirclesSrc.Cache) :
    (((CirclesSrc.streamRun env p now users cua c0).segs.take
        (users.filter (fun u => !CirclesSrc.hasAddrs u)).length).map (fun s => s.2) =
      CirclesSrc.numberItems users.length 0
        ((users.filter (fun u => !CirclesSrc.hasAddrs u)).map
          (fun u => (u.fid, ({ isOnCircles := false } : CirclesSrc.CirclesDataSrc))))) ∧
    (∀ s ∈ ((CirclesSrc.streamRun env p now users cua c0).segs.take
        (users.filter (fun u => !CirclesSrc.hasAddrs u)).length).drop 1,
      s.1 = ([] : List CirclesSrc.UpCall)) ∧
    (0 < (users.filter (fun u => !CirclesSrc.hasAddrs u)).length →
      ∃ it, (CirclesSrc.streamRun env p now users cua c0).segs.take 1 =
        [((CirclesSrc.viewerTrusts env p now cua c0).2.2, it)]) := by
  have hlen : (CirclesSrc.numberItems users.length 0
      ((users.filter (fun u => !CirclesSrc.hasAddrs u)).map
        (fun u => (u.fid, ({ isOnCircles := false } : CirclesSrc.CirclesDataSrc))))).length =
      (users.filter (fun u => !CirclesSrc.hasAddrs u)).length := by
    rw [numberItems_length]; simp
  simp only [CirclesSrc.streamRun]
  rw [← hlen]
  exact attachFirst_shape _ _ _

/-- C7 counterexample: with a viewer address present, the trust-list fetch (an
upstream network call) runs before the no-address identity is yielded, so the
yield does not precede all network activity. -/
theorem claim7_counterexample :
    ((CirclesSrc.streamRun Inputs.env0 false 0 [Inputs.u1] (some ["0xv"])
        CirclesSrc.emptyCache).segs.map (fun s => s.1)) =
      [[CirclesSrc.UpCall.eventsRpc "0xv"]] ∧
    ((CirclesSrc.streamRun Inputs.env0 false 0 [Inputs.u1] (some ["0xv"])
        CirclesSrc.emptyCache).segs.map (fun s => s.2.circlesData.isOnCircles)) = [false] := by
  decide

/-- C7 witness: one no-address user and one user with an address; the
no-address yield comes first, with the trust fetch as the only preceding
calls. -/
theorem claim7_witness :
    (((CirclesSrc.streamRun Inputs.env0 false 0 [Inputs.u1, Inputs.u3] (some ["0xv"])
        CirclesSrc.emptyCache).segs.take
        ([Inputs.u1, Inputs.u3].filter (fun u => !CirclesSrc.hasAddrs u)).length).map
        (fun s => s.2) =
      CirclesSrc.numberItems 2 0
        (([Inputs.u1, Inputs.u3].filter (fun u => !CirclesSrc.hasAddrs u)).map
          (fun u => (u.fid, ({ isOnCircles := false } : CirclesSrc.CirclesDataSrc))))) ∧
    (0 < ([Inputs.u1, Inputs.u3].filter (fun u => !CirclesSrc.hasAddrs u)).length →
      ∃ it, (CirclesSrc.streamRun Inputs.env0 false 0 [Inputs.u1, Inputs.u3] (some ["0xv"])
          CirclesSrc.emptyCache).segs.take 1 =
        [((CirclesSrc.viewerTrusts Inputs.env0 false 0 (some ["0xv"])
            CirclesSrc.emptyCache).2.2, it)]) :=
  ⟨(claim7_fast_path Inputs.env0 false 0 [Inputs.u1, Inputs.u3] (some ["0xv"])
      CirclesSrc.emptyCache).1,
   (claim7_fast_path Inputs.env0 false 0 [Inputs.u1, Inputs.u3] (some ["0xv"])
      CirclesSrc.emptyCache).2.2⟩

theorem alook_cons {α : Type} (k : String) (v : α) (t : Int)
    (tbl : List (String × α × Int)) (key : String) :
    CirclesSrc.alook ((k, v, t) :: tbl) key =
      if k = key then some (v, t) else CirclesSrc.alook tbl key := rfl

theorem getTrusts_val (env : Circles.Env) (p : Bool) (now : Int) (a : String)
    (c : CirclesSrc.Cache) (h : CirclesSrc.trustInv env c) :
    (CirclesSrc.getCurrentUserTrusts env p now a c).1 =
      (CirclesSrc.getCurrentUserTrustList env a).1 ∧
    CirclesSrc.trustInv env (CirclesSrc.getCurrentUserTrusts env p now a c).2.1 := by
  cases p with
  | false => exact ⟨rfl, h⟩
  | true =>
    unfold CirclesSrc.getCurrentUserTrusts
    simp only [if_true]
    cases halook : CirclesSrc.alook c.trustC a with
    | none =>
      refine ⟨rfl, ?_⟩
      intro b v t hb
      rw [alook_cons] at hb
      by_cases hab : a = b
      · subst hab
        simp at hb
        exact hb.1.symm
      · rw [if_neg hab] at hb
        exact h b v t hb
    | some vt =>
      by_cases hfresh : now - vt.2 < 3600
      · simp only [halook, hfresh, if_true]
        exact ⟨h a vt.1 vt.2 halook, h⟩
      · simp only [halook, hfresh, if_false]
        refine ⟨trivial, ?_⟩
        intro b v t hb
        rw [alook_cons] at hb
        by_cases hab : a = b
        · subst hab
          simp at hb
          exact hb.1.symm
        · rw [if_neg hab] at hb
          exact h b v t hb

theorem trustLoop_spec (env : Circles.Env) (p : Bool) (now : Int) :
    ∀ (l : List String) (c : CirclesSrc.Cache), CirclesSrc.trustInv env c →
      (CirclesSrc.trustLoop env p now l c).1 =
        ((l.map (fun a => (CirclesSrc.getCurrentUserTrustList env a).1)).find?
            (fun ts => !ts.isEmpty)).getD [] ∧
      CirclesSrc.trustInv env (CirclesSrc.trustLoop env p now l c).2.1 := by
  intro l
  induction l with
  | nil => intro c h; exact ⟨rfl, h⟩
  | cons a rest ih =>
    intro c h
    have hv := getTrusts_val env p now a c h
    unfold CirclesSrc.trustLoop
    by_cases hne : ((CirclesSrc.getCurrentUserTrusts env p now a c).1).isEmpty = true
    · have hraw : ((CirclesSrc.getCurrentUserTrustList env a).1).isEmpty = true := by
        rw [← hv.1]; exact hne
      simp only [hne, Bool.not_true, Bool.false_eq_true, if_false]
      have hrec := ih (CirclesSrc.getCurrentUserTrusts env p now a c).2.1 hv.2
      refine ⟨?_, hrec.2⟩
      rw [hrec.1]
      simp only [List.map_cons]
      rw [List.find?_cons_of_neg]
      simp [hraw]
    · rw [Bool.not_eq_true] at hne
      have hraw : ((CirclesSrc.getCurrentUserTrustList env a).1).isEmpty = false := by
        rw [← hv.1]; exact hne
      simp only [hne, Bool.not_false, if_true]
      refine ⟨?_, hv.2⟩
      rw [hv.1]
      simp only [List.map_cons]
      rw [List.find?_cons_of_pos]
      · rfl
      · simp [hraw]

theorem viewerTrusts_spec (env : Circles.Env) (p : Bool) (now : Int)
    (cua : Option (List String)) (c0 : CirclesSrc.Cache)
    (h : CirclesSrc.trustInv env c0) :
    (CirclesSrc.viewerTrusts env p now cua c0).1 = CirclesSrc.trustSpecOf env cua := by
  cases cua with
  | none => rfl
  | some l =>
    unfold CirclesSrc.viewerTrusts CirclesSrc.trustSpecOf
    cases l with
    | nil => rfl
    | cons a rest =>
      simp only [List.isEmpty_cons, Bool.not_false, if_true]
      exact (trustLoop_spec env p now (a :: rest) c0 h).1

theorem processUser_trusted_empty (env : Circles.Env) (p : Bool) (now : Int)
    (u : CirclesSrc.User) (c : CirclesSrc.Cache) :
    ((CirclesSrc.processUser env p now [] u c).1.2).isTrustedByCurrentUser = some false := by
  unfold CirclesSrc.processUser
  simp only
  congr 1
  cases hma : (CirclesSrc.checkCirclesStatusWithDebug env p now (u.ethAddresses.getD []) c).1.circlesData.mainAddress with
  | none => simp [hma]
  | some m => simp [hma]

theorem processBatch_trusted_empty (env : Circles.Env) (p : Bool) (now : Int) :
    ∀ (b : List CirclesSrc.User) (c : CirclesSrc.Cache),
      ((CirclesSrc.processBatch env p now [] b c).1.all
        (fun pr => pr.2.isTrustedByCurrentUser == some false)) = true := by
  intro b
  induction b with
  | nil => intro c; rfl
  | cons u rest ih =>
    intro c
    simp only [CirclesSrc.processBatch, List.all_cons]
    rw [processUser_trusted_empty]
    simp [ih]

theorem batchRuns_trusted_empty (env : Circles.Env) (p : Bool) (now : Int) :
    ∀ (bs : List (List CirclesSrc.User)) (c : CirclesSrc.Cache),
      ((((CirclesSrc.batchRuns env p now [] bs c).1.map (fun b => b.2)).flatten).all
        (fun pr => pr.2.isTrustedByCurrentUser == some false)) = true := by
  intro bs
  induction bs with
  | nil => intro c; rfl
  | cons b rest ih =>
    intro c
    simp only [CirclesSrc.batchRuns, List.map_cons, List.flatten_cons, List.all_append]
    rw [processBatch_trusted_empty, ih]
    rfl

theorem trustSpec_all_empty (env : Circles.Env) (cua : Option (List String))
    (hempty : ((cua.getD []).all
      (fun a => ((CirclesSrc.getCurrentUserTrustList env a).1).isEmpty)) = true) :
    CirclesSrc.trustSpecOf env cua = [] := by
  cases cua with
  | none => rfl
  | some l =>
    have hfind : (l.map (fun a => (CirclesSrc.getCurrentUserTrustList env a).1)).find?
        (fun ts => !ts.isEmpty) = none := by
      rw [List.find?_eq_none]
      intro ts hts
      rcases List.mem_map.mp hts with ⟨a, ha, heq⟩
      have := List.all_eq_true.mp hempty a ha
      rw [← heq]
      simp [this]
    simp only [CirclesSrc.trustSpecOf]
    rw [hfind]
    rfl

/-- C10 (amended): the viewer trust set is the first viewer address whose
fetched trust set is non-empty (an empty fetched set is skipped exactly like a
failure); when every viewer address yields an empty set, every yielded result
for an identity with candidate addresses carries `isTrustedByCurrentUser =
false`, while results for identities without candidate addresses carry no
`isTrustedByCurrentUser` field at all. -/
theorem claim10_trust_selection (env : Circles.Env) (p : Bool) (now : Int)
    (users : List CirclesSrc.User) (cua : Option (List String))
    (c0 : CirclesSrc.Cache) (hinv : CirclesSrc.trustInv env c0) :
    ((CirclesSrc.viewerTrusts env p now cua c0).1 = CirclesSrc.trustSpecOf env cua) ∧
    (((cua.getD []).all
        (fun a => ((CirclesSrc.getCurrentUserTrustList env a).1).isEmpty)) = true →
      ((((CirclesSrc.streamRun env p now users cua c0).segs.map (fun s => s.2)).take
          (users.filter (fun u => !CirclesSrc.hasAddrs u)).length).all
          (fun it => it.circlesData.isTrustedByCurrentUser == none) = true) ∧
      ((((CirclesSrc.streamRun env p now users cua c0).segs.map (fun s => s.2)).drop
          (users.filter (fun u => !CirclesSrc.hasAddrs u)).length).all
          (fun it => it.circlesData.isTrustedByCurrentUser == some false) = true)) := by
  refine ⟨viewerTrusts_spec env p now cua c0 hinv, ?_⟩
  intro hempty
  have htr : (CirclesSrc.viewerTrusts env p now cua c0).1 = [] := by
    rw [viewerTrusts_spec env p now cua c0 hinv]
    exact trustSpec_all_empty env cua hempty
  rw [streamRun_items]
  set noPairs := (users.filter (fun u => !CirclesSrc.hasAddrs u)).map
    (fun u => (u.fid, ({ isOnCircles := false } : CirclesSrc.CirclesDataSrc))) with hnoPairs
  have hlen : noPairs.length = (users.filter (fun u => !CirclesSrc.hasAddrs u)).length := by
    simp [hnoPairs]
  have hsplit : CirclesSrc.streamPairs env p now users cua c0 =
      noPairs ++ (((CirclesSrc.batchRuns env p now
          (CirclesSrc.viewerTrusts env p now cua c0).1
          (CirclesSrc.chunks8 (users.filter CirclesSrc.hasAddrs))
          (CirclesSrc.viewerTrusts env p now cua c0).2.1).1).map (fun b => b.2)).flatten := rfl
  rw [hsplit, numberItems_append, ← hlen]
  constructor
  · rw [show noPairs.length =
        (CirclesSrc.numberItems users.length 0 noPairs).length from
        (numberItems_length _ _ _).symm, List.take_left]
    rw [numberItems_all_data users.length
      (fun d => d.isTrustedByCurrentUser == none)]
    simp only [hnoPairs, List.all_map, Function.comp, List.all_eq_true, beq_iff_eq]
    intro a ha
    rcases List.mem_map.mp ha with ⟨u, _, heq⟩
    rw [← heq]
  · rw [show noPairs.length =
        (CirclesSrc.numberItems users.length 0 noPairs).length from
        (numberItems_length _ _ _).symm, List.drop_left]
    rw [numberItems_all_data users.length
      (fun d => d.isTrustedByCurrentUser == some false)]
    rw [htr]
    exact batchRuns_trusted_empty env p now _ _

/-- C10 counterexample: a user without candidate addresses is yielded with no
`isTrustedByCurrentUser` field (absent, not `false`), so not every yielded
result carries `isTrustedByCurrentUser = false` even though every viewer
address yields an empty trust set. -/
theorem claim10_counterexample :
    ((CirclesSrc.getCurrentUserTrustList Inputs.env0 "0xv").1 = []) ∧
    (((CirclesSrc.streamRun Inputs.env0 false 0 [Inputs.u1] (some ["0xv"])
        CirclesSrc.emptyCache).segs.map
        (fun s => s.2.circlesData.isTrustedByCurrentUser)) = [none]) ∧
    (((CirclesSrc.streamRun Inputs.env0 false 0 [Inputs.u1] (some ["0xv"])
        CirclesSrc.emptyCache).segs.map (fun s => s.2)).all
        (fun it => it.circlesData.isTrustedByCurrentUser == some false) = false) := by
  decide

/-- C10 witness: with one no-address user and one user with an address, and a
viewer whose trust fetch is empty, the no-address yield carries no trust flag
and the with-address yield carries `isTrustedByCurrentUser = false`. -/
theorem claim10_witness :
    ((CirclesSrc.viewerTrusts Inputs.env0 false 0 (some ["0xv"]) CirclesSrc.emptyCache).1 =
      CirclesSrc.trustSpecOf Inputs.env0 (some ["0xv"])) ∧
    ((((CirclesSrc.streamRun Inputs.env0 false 0 [Inputs.u1, Inputs.u3] (some ["0xv"])
        CirclesSrc.emptyCache).segs.map (fun s => s.2)).take
        ([Inputs.u1, Inputs.u3].filter (fun u => !CirclesSrc.hasAddrs u)).length).all
        (fun it => it.circlesData.isTrustedByCurrentUser == none) = true) ∧
    ((((CirclesSrc.streamRun Inputs.env0 false 0 [Inputs.u1, Inputs.u3] (some ["0xv"])
        CirclesSrc.emptyCache).segs.map (fun s => s.2)).drop
        ([Inputs.u1, Inputs.u3].filter (fun u => !CirclesSrc.hasAddrs u)).length).all
        (fun it => it.circlesData.isTrustedByCurrentUser == some false) = true) := by
  have h := claim10_trust_selection Inputs.env0 false 0 [Inputs.u1, Inputs.u3]
    (some ["0xv"]) CirclesSrc.emptyCache
    (by intro a v t hb; simp [CirclesSrc.alook] at hb)
  exact ⟨h.1, (h.2 (by decide)).1, (h.2 (by decide)).2⟩

theorem set_null_nullAt {α : Type} (c : SimpleCacheM.SimpleCache α) (key : String)
    (ttlMs now : Int) :
    SimpleCacheM.nullAt (SimpleCacheM.SimpleCache.set c key none ttlMs now) key := by
  intro now2
  unfold SimpleCacheM.SimpleCache.get SimpleCacheM.SimpleCache.set
  simp only [SimpleCacheM.lookupEntry, if_pos rfl]
  by_cases h : ttlMs < now2 - now
  · simp [h]
  · simp [h]

theorem getOrSet_of_nullAt {α : Type} (c : SimpleCacheM.SimpleCache α) (key : String)
    (fetched : Option α) (ttlMs now : Int) (h : SimpleCacheM.nullAt c key) :
    (SimpleCacheM.SimpleCache.getOrSet c key fetched ttlMs now).1 = fetched ∧
    (SimpleCacheM.SimpleCache.getOrSet c key fetched ttlMs now).2.2 = 1 ∧
    (fetched = none →
      SimpleCacheM.nullAt (SimpleCacheM.SimpleCache.getOrSet c key fetched ttlMs now).2.1 key) := by
  unfold SimpleCacheM.SimpleCache.getOrSet
  rw [h now]
  refine ⟨rfl, rfl, ?_⟩
  intro hf
  subst hf
  exact set_null_nullAt _ key ttlMs now

/-- C9: when the fetcher resolves to `null` on a miss, `getOrSet` stores the
`null` but `get` reads it back as `null` (indistinguishable from an absent
entry), so the key can never serve a cache hit again and every subsequent
`getOrSet` — even within the TTL — invokes the fetcher once more; and as long
as the fetchers keep resolving to `null` this persists forever. -/
theorem claim9_null_never_cached {α : Type} (c : SimpleCacheM.SimpleCache α)
    (key : String) (ttlMs now : Int)
    (hmiss : (SimpleCacheM.SimpleCache.get c key now).1 = none) :
    (SimpleCacheM.SimpleCache.getOrSet c key none ttlMs now).1 = none ∧
    (SimpleCacheM.SimpleCache.getOrSet c key none ttlMs now).2.2 = 1 ∧
    SimpleCacheM.nullAt (SimpleCacheM.SimpleCache.getOrSet c key none ttlMs now).2.1 key ∧
    (∀ (now2 ttl2 : Int) (f2 : Option α),
      (SimpleCacheM.SimpleCache.getOrSet
          (SimpleCacheM.SimpleCache.getOrSet c key none ttlMs now).2.1 key f2 ttl2 now2).1 = f2 ∧
      (SimpleCacheM.SimpleCache.getOrSet
          (SimpleCacheM.SimpleCache.getOrSet c key none ttlMs now).2.1 key f2 ttl2 now2).2.2 = 1 ∧
      (f2 = none →
        SimpleCacheM.nullAt
          (SimpleCacheM.SimpleCache.getOrSet
            (SimpleCacheM.SimpleCache.getOrSet c key none ttlMs now).2.1 key f2 ttl2 now2).2.1
          key)) := by
  have h1 : (SimpleCacheM.SimpleCache.getOrSet c key none ttlMs now).1 = none ∧
      (SimpleCacheM.SimpleCache.getOrSet c key none ttlMs now).2.2 = 1 ∧
      SimpleCacheM.nullAt (SimpleCacheM.SimpleCache.getOrSet c key none ttlMs now).2.1 key := by
    unfold SimpleCacheM.SimpleCache.getOrSet
    rw [hmiss]
    exact ⟨rfl, rfl, set_null_nullAt _ key ttlMs now⟩
  refine ⟨h1.1, h1.2.1, h1.2.2, ?_⟩
  intro now2 ttl2 f2
  exact getOrSet_of_nullAt _ key f2 ttl2 now2 h1.2.2

/-- C9 witness: starting from an empty cache, a `null`-resolving fetch is
re-invoked by the immediately following `getOrSet` within the TTL. -/
theorem claim9_witness :
    (SimpleCacheM.SimpleCache.get (⟨[]⟩ : SimpleCacheM.SimpleCache Nat) "k" 0).1 = none ∧
    (SimpleCacheM.SimpleCache.getOrSet (⟨[]⟩ : SimpleCacheM.SimpleCache Nat)
        "k" none 86400000 0).2.2 = 1 ∧
    (SimpleCacheM.SimpleCache.getOrSet
        (SimpleCacheM.SimpleCache.getOrSet (⟨[]⟩ : SimpleCacheM.SimpleCache Nat)
          "k" none 86400000 0).2.1 "k" (some 5) 86400000 10).2.2 = 1 := by
  refine ⟨by decide, ?_, ?_⟩
  · exact (claim9_null_never_cached (⟨[]⟩ : SimpleCacheM.SimpleCache Nat) "k" 86400000 0
      (by decide)).2.1
  · exact ((claim9_null_never_cached (⟨[]⟩ : SimpleCacheM.SimpleCache Nat) "k" 86400000 0
      (by decide)).2.2.2 10 86400000 (some 5)).2.1

section CacheIdem

open CirclesSrc Circles

theorem tableInv_cons {α : Type} (f : String → α) (t1 : Int)
    (tbl : List (String × α × Int)) (a : String)
    (h : CirclesSrc.tableInv f t1 tbl) :
    CirclesSrc.tableInv f t1 ((a, f a, t1) :: tbl) := by
  intro b v t hb
  rw [alook_cons] at hb
  by_cases hab : a = b
  · subst hab
    simp at hb
    exact ⟨hb.1.symm, hb.2.symm⟩
  · rw [if_neg hab] at hb
    exact h b v t hb

theorem tblMono_refl {α : Type} (tbl : List (String × α × Int)) :
    CirclesSrc.tblMono tbl tbl := fun _ hx => hx

theorem tblMono_trans {α : Type} {t1 t2 t3 : List (String × α × Int)}
    (h1 : CirclesSrc.tblMono t1 t2) (h2 : CirclesSrc.tblMono t2 t3) :
    CirclesSrc.tblMono t1 t3 := fun x hx => h2 x (h1 x hx)

theorem tblMono_cons {α : Type} (k : String) (v : α) (t : Int)
    (tbl : List (String × α × Int)) :
    CirclesSrc.tblMono tbl ((k, v, t) :: tbl) := by
  intro x hx
  rw [alook_cons]
  by_cases hkx : k = x
  · simp [hkx]
  · rw [if_neg hkx]
    exact hx

theorem cacheMono_refl (c : CirclesSrc.Cache) : CirclesSrc.cacheMono c c :=
  ⟨tblMono_refl _, tblMono_refl _, tblMono_refl _, tblMono_refl _⟩

theorem cacheMono_trans {c1 c2 c3 : CirclesSrc.Cache}
    (h1 : CirclesSrc.cacheMono c1 c2) (h2 : CirclesSrc.cacheMono c2 c3) :
    CirclesSrc.cacheMono c1 c3 :=
  ⟨tblMono_trans h1.1 h2.1, tblMono_trans h1.2.1 h2.2.1,
    tblMono_trans h1.2.2.1 h2.2.2.1, tblMono_trans h1.2.2.2 h2.2.2.2⟩

theorem direct_run (env : Circles.Env) (t1 : Int) (a : String) (c : CirclesSrc.Cache)
    (h : CirclesSrc.cacheInv env t1 c) :
    (CirclesSrc.checkDirectCirclesProfile env true t1 a c).1 =
      Circles.directCirclesProfileLookup env a ∧
    CirclesSrc.cacheInv env t1 (CirclesSrc.checkDirectCirclesProfile env true t1 a c).2.1 ∧
    CirclesSrc.cacheMono c (CirclesSrc.checkDirectCirclesProfile env true t1 a c).2.1 ∧
    CirclesSrc.alook (CirclesSrc.checkDirectCirclesProfile env true t1 a c).2.1.directC a ≠
      none := by
  unfold CirclesSrc.checkDirectCirclesProfile
  simp only [if_true]
  split
  next vt heq =>
    obtain ⟨hv, ht⟩ := h.1 a vt.1 vt.2 (by rw [heq])
    rw [if_pos (by omega : t1 - vt.2 < 86400)]
    exact ⟨hv, h, cacheMono_refl c, by rw [heq]; simp⟩
  next heq =>
    refine ⟨rfl, ⟨tableInv_cons _ t1 _ a h.1, h.2.1, h.2.2.1, h.2.2.2⟩,
      ⟨tblMono_cons _ _ _ _, tblMono_refl _, tblMono_refl _, tblMono_refl _⟩, ?_⟩
    rw [alook_cons, if_pos rfl]
    simp

theorem direct_hit (env : Circles.Env) (t1 t2 : Int) (a : String) (c : CirclesSrc.Cache)
    (h : CirclesSrc.cacheInv env t1 c)
    (hp : CirclesSrc.alook c.directC a ≠ none) (hf : t2 - t1 < 86400) :
    CirclesSrc.checkDirectCirclesProfile env true t2 a c =
      (Circles.directCirclesProfileLookup env a, c, []) := by
  unfold CirclesSrc.checkDirectCirclesProfile
  simp only [if_true]
  split
  next vt heq =>
    obtain ⟨hv, ht⟩ := h.1 a vt.1 vt.2 (by rw [heq])
    rw [if_pos (by omega : t2 - vt.2 < 86400), hv]
  next heq => exact absurd heq hp

theorem token_run (env : Circles.Env) (t1 : Int) (a : String) (c : CirclesSrc.Cache)
    (h : CirclesSrc.cacheInv env t1 c) :
    (CirclesSrc.checkActiveToken env true t1 a c).1 =
      (CirclesSrc.checkActiveCirclesTokenRaw env a).1 ∧
    CirclesSrc.cacheInv env t1 (CirclesSrc.checkActiveToken env true t1 a c).2.1 ∧
    CirclesSrc.cacheMono c (CirclesSrc.checkActiveToken env true t1 a c).2.1 ∧
    CirclesSrc.alook (CirclesSrc.checkActiveToken env true t1 a c).2.1.tokenC a ≠ none := by
  unfold CirclesSrc.checkActiveToken
  simp only [if_true]
  split
  next vt heq =>
    obtain ⟨hv, ht⟩ := h.2.2.1 a vt.1 vt.2 (by rw [heq])
    rw [if_pos (by omega : t1 - vt.2 < 86400)]
    exact ⟨hv, h, cacheMono_refl c, by rw [heq]; simp⟩
  next heq =>
    refine ⟨rfl, ⟨h.1, h.2.1, tableInv_cons _ t1 _ a h.2.2.1, h.2.2.2⟩,
      ⟨tblMono_refl _, tblMono_refl _, tblMono_cons _ _ _ _, tblMono_refl _⟩, ?_⟩
    rw [alook_cons, if_pos rfl]
    simp

theorem token_hit (env : Circles.Env) (t1 t2 : Int) (a : String) (c : CirclesSrc.Cache)
    (h : CirclesSrc.cacheInv env t1 c)
    (hp : CirclesSrc.alook c.tokenC a ≠ none) (hf : t2 - t1 < 86400) :
    CirclesSrc.checkActiveToken env true t2 a c =
      ((CirclesSrc.checkActiveCirclesTokenRaw env a).1, c, []) := by
  unfold CirclesSrc.checkActiveToken
  simp only [if_true]
  split
  next vt heq =>
    obtain ⟨hv, ht⟩ := h.2.2.1 a vt.1 vt.2 (by rw [heq])
    rw [if_pos (by omega : t2 - vt.2 < 86400), hv]
  next heq => exact absurd heq hp

theorem trust_run (env : Circles.Env) (t1 : Int) (a : String) (c : CirclesSrc.Cache)
    (h : CirclesSrc.cacheInv env t1 c) :
    (CirclesSrc.getCurrentUserTrusts env true t1 a c).1 =
      (CirclesSrc.getCurrentUserTrustList env a).1 ∧
    CirclesSrc.cacheInv env t1 (CirclesSrc.getCurrentUserTrusts env true t1 a c).2.1 ∧
    CirclesSrc.cacheMono c (CirclesSrc.getCurrentUserTrusts env true t1 a c).2.1 ∧
    CirclesSrc.alook (CirclesSrc.getCurrentUserTrusts env true t1 a c).2.1.trustC a ≠
      none := by
  unfold CirclesSrc.getCurrentUserTrusts
  simp only [if_true]
  split
  next vt heq =>
    obtain ⟨hv, ht⟩ := h.2.2.2 a vt.1 vt.2 (by rw [heq])
    rw [if_pos (by omega : t1 - vt.2 < 3600)]
    exact ⟨hv, h, cacheMono_refl c, by rw [heq]; simp⟩
  next heq =>
    refine ⟨rfl, ⟨h.1, h.2.1, h.2.2.1, tableInv_cons _ t1 _ a h.2.2.2⟩,
      ⟨tblMono_refl _, tblMono_refl _, tblMono_refl _, tblMono_cons _ _ _ _⟩, ?_⟩
    rw [alook_cons, if_pos rfl]
    simp

theorem trust_hit (env : Circles.Env) (t1 t2 : Int) (a : String) (c : CirclesSrc.Cache)
    (h : CirclesSrc.cacheInv env t1 c)
    (hp : CirclesSrc.alook c.trustC a ≠ none) (hf : t2 - t1 < 3600) :
    CirclesSrc.getCurrentUserTrusts env true t2 a c =
      ((CirclesSrc.getCurrentUserTrustList env a).1, c, []) := by
  unfold CirclesSrc.getCurrentUserTrusts
  simp only [if_true]
  split
  next vt heq =>
    obtain ⟨hv, ht⟩ := h.2.2.2 a vt.1 vt.2 (by rw [heq])
    rw [if_pos (by omega : t2 - vt.2 < 3600), hv]
  next heq => exact absurd heq hp

end CacheIdem

theorem findSafeSrc_run (env : Circles.Env) (t1 : Int) :
    ∀ (evs : List Circles.CirclesEvent) (c : CirclesSrc.Cache),
      CirclesSrc.cacheInv env t1 c →
      (CirclesSrc.findSafeSrc env true t1 evs c).1 = Circles.findSafe env evs ∧
      CirclesSrc.cacheInv env t1 (CirclesSrc.findSafeSrc env true t1 evs c).2.1 ∧
      CirclesSrc.cacheMono c (CirclesSrc.findSafeSrc env true t1 evs c).2.1 := by
  intro evs
  induction evs with
  | nil => intro c h; exact ⟨rfl, h, cacheMono_refl c⟩
  | cons e rest ih =>
    intro c h
    unfold CirclesSrc.findSafeSrc Circles.findSafe
    cases hsa : e.valuesSafeAddress with
    | none => exact ih c h
    | some sa =>
      by_cases hsa0 : sa = ""
      · simp only [hsa0, if_pos rfl]
        exact ih c h
      · simp only [if_neg hsa0]
        have hd := direct_run env t1 sa c h
        by_cases hex : (Circles.directCirclesProfileLookup env sa).exists_ = true
        · simp only [hd.1, hex, if_true]
          exact ⟨by first | rfl | trivial, hd.2.1, hd.2.2.1⟩
        · rw [Bool.not_eq_true] at hex
          simp only [hd.1, hex, Bool.false_eq_true, if_false]
          have hr := ih (CirclesSrc.checkDirectCirclesProfile env true t1 sa c).2.1 hd.2.1
          exact ⟨hr.1, hr.2.1, cacheMono_trans hd.2.2.1 hr.2.2⟩

theorem signerRaw_run (env : Circles.Env) (t1 : Int) (a : String) (c : CirclesSrc.Cache)
    (h : CirclesSrc.cacheInv env t1 c) :
    (CirclesSrc.signerToMainAccountLookupSrc env true t1 a c).1 =
      Circles.signerToMainAccountLookup env a ∧
    CirclesSrc.cacheInv env t1 (CirclesSrc.signerToMainAccountLookupSrc env true t1 a c).2.1 ∧
    CirclesSrc.cacheMono c (CirclesSrc.signerToMainAccountLookupSrc env true t1 a c).2.1 := by
  unfold CirclesSrc.signerToMainAccountLookupSrc Circles.signerToMainAccountLookup
  cases hev : env.eventsRpc a with
  | none => exact ⟨rfl, h, cacheMono_refl c⟩
  | some evs =>
    have hf := findSafeSrc_run env t1 (evs.filter (Circles.ownerEventFilter a)) c h
    exact ⟨hf.1, hf.2.1, hf.2.2⟩

theorem signer_run (env : Circles.Env) (t1 : Int) (a : String) (c : CirclesSrc.Cache)
    (h : CirclesSrc.cacheInv env t1 c) :
    (CirclesSrc.checkSignerToMainAccount env true t1 a c).1 =
      Circles.signerToMainAccountLookup env a ∧
    CirclesSrc.cacheInv env t1 (CirclesSrc.checkSignerToMainAccount env true t1 a c).2.1 ∧
    CirclesSrc.cacheMono c (CirclesSrc.checkSignerToMainAccount env true t1 a c).2.1 ∧
    CirclesSrc.alook (CirclesSrc.checkSignerToMainAccount env true t1 a c).2.1.signerC a ≠
      none := by
  unfold CirclesSrc.checkSignerToMainAccount
  simp only [if_true]
  split
  next vt heq =>
    obtain ⟨hv, ht⟩ := h.2.1 a vt.1 vt.2 (by rw [heq])
    rw [if_pos (by omega : t1 - vt.2 < 86400)]
    exact ⟨hv, h, cacheMono_refl c, by rw [heq]; simp⟩
  next heq =>
    have hrw := signerRaw_run env t1 a c h
    refine ⟨hrw.1, ?_, ?_, ?_⟩
    · have hinv := hrw.2.1
      refine ⟨hinv.1, ?_, hinv.2.2.1, hinv.2.2.2⟩
      rw [hrw.1]
      exact tableInv_cons _ t1 _ a hinv.2.1
    · refine ⟨hrw.2.2.1, tblMono_trans hrw.2.2.2.1 (tblMono_cons _ _ _ _),
        hrw.2.2.2.2.1, hrw.2.2.2.2.2⟩
    · rw [alook_cons, if_pos rfl]
      simp

theorem signer_hit (env : Circles.Env) (t1 t2 : Int) (a : String) (c : CirclesSrc.Cache)
    (h : CirclesSrc.cacheInv env t1 c)
    (hp : CirclesSrc.alook c.signerC a ≠ none) (hf : t2 - t1 < 86400) :
    CirclesSrc.checkSignerToMainAccount env true t2 a c =
      (Circles.signerToMainAccountLookup env a, c, []) := by
  unfold CirclesSrc.checkSignerToMainAccount
  simp only [if_true]
  split
  next vt heq =>
    obtain ⟨hv, ht⟩ := h.2.1 a vt.1 vt.2 (by rw [heq])
    rw [if_pos (by omega : t2 - vt.2 < 86400), hv]
  next heq => exact absurd heq hp

theorem checkLoop_idem (env : Circles.Env) (t1 t2 : Int) (hf : t2 - t1 < 86400) :
    ∀ (addrs : List String) (dbg : List Circles.AddressCheck) (c : CirclesSrc.Cache),
      CirclesSrc.cacheInv env t1 c →
      CirclesSrc.cacheInv env t1 (CirclesSrc.checkLoopSrc env true t1 addrs dbg c).2.1 ∧
      CirclesSrc.cacheMono c (CirclesSrc.checkLoopSrc env true t1 addrs dbg c).2.1 ∧
      CirclesSrc.checkLoopSrc env true t2 addrs dbg
          (CirclesSrc.checkLoopSrc env true t1 addrs dbg c).2.1 =
        ((CirclesSrc.checkLoopSrc env true t1 addrs dbg c).1,
          (CirclesSrc.checkLoopSrc env true t1 addrs dbg c).2.1, []) := by
  intro addrs
  induction addrs with
  | nil => intro dbg c h; exact ⟨h, cacheMono_refl c, rfl⟩
  | cons a rest ih =>
    intro dbg c h
    have hd := direct_run env t1 a c h
    have hs := signer_run env t1 a
      (CirclesSrc.checkDirectCirclesProfile env true t1 a c).2.1 hd.2.1
    by_cases hbd : (Circles.directCirclesProfileLookup env a).exists_ = true
    · -- direct strategy matches
      have ht := token_run env t1 a
        (CirclesSrc.checkSignerToMainAccount env true t1 a
          (CirclesSrc.checkDirectCirclesProfile env true t1 a c).2.1).2.1 hs.2.1
      have hpD : CirclesSrc.alook (CirclesSrc.checkActiveToken env true t1 a
          (CirclesSrc.checkSignerToMainAccount env true t1 a
            (CirclesSrc.checkDirectCirclesProfile env true t1 a c).2.1).2.1).2.1.directC a ≠
          none :=
        ht.2.2.1.1 a (hs.2.2.1.1 a hd.2.2.2)
      have hpS : CirclesSrc.alook (CirclesSrc.checkActiveToken env true t1 a
          (CirclesSrc.checkSignerToMainAccount env true t1 a
            (CirclesSrc.checkDirectCirclesProfile env true t1 a c).2.1).2.1).2.1.signerC a ≠
          none :=
        ht.2.2.1.2.1 a hs.2.2.2
      have hdh := direct_hit env t1 t2 a _ ht.2.1 hpD hf
      have hsh := signer_hit env t1 t2 a _ ht.2.1 hpS hf
      have hth := token_hit env t1 t2 a _ ht.2.1 ht.2.2.2 hf
      simp only [CirclesSrc.checkLoopSrc, hd.1, hs.1, ht.1, hbd, if_true, hdh, hsh, hth]
      exact ⟨ht.2.1, cacheMono_trans hd.2.2.1 (cacheMono_trans hs.2.2.1 ht.2.2.1), rfl⟩
    · rw [Bool.not_eq_true] at hbd
      by_cases hbs : (Circles.signerToMainAccountLookup env a).exists_ = true
      · -- signer strategy matches
        cases hma : (Circles.signerToMainAccountLookup env a).mainAddress with
        | none =>
          have hpD : CirclesSrc.alook (CirclesSrc.checkSignerToMainAccount env true t1 a
              (CirclesSrc.checkDirectCirclesProfile env true t1 a c).2.1).2.1.directC a ≠
              none := hs.2.2.1.1 a hd.2.2.2
          have hdh := direct_hit env t1 t2 a _ hs.2.1 hpD hf
          have hsh := signer_hit env t1 t2 a _ hs.2.1 hs.2.2.2 hf
          simp only [CirclesSrc.checkLoopSrc, hd.1, hs.1, hbd, Bool.false_eq_true, if_false,
            hbs, if_true, hma, hdh, hsh]
          exact ⟨hs.2.1, cacheMono_trans hd.2.2.1 hs.2.2.1, rfl⟩
        | some m =>
          by_cases hm0 : m = ""
          · have hpD : CirclesSrc.alook (CirclesSrc.checkSignerToMainAccount env true t1 a
                (CirclesSrc.checkDirectCirclesProfile env true t1 a c).2.1).2.1.directC a ≠
                none := hs.2.2.1.1 a hd.2.2.2
            have hdh := direct_hit env t1 t2 a _ hs.2.1 hpD hf
            have hsh := signer_hit env t1 t2 a _ hs.2.1 hs.2.2.2 hf
            simp only [CirclesSrc.checkLoopSrc, hd.1, hs.1, hbd, Bool.false_eq_true, if_false,
              hbs, if_true, hma, hm0, if_pos rfl, hdh, hsh]
            exact ⟨hs.2.1, cacheMono_trans hd.2.2.1 hs.2.2.1, rfl⟩
          · have ht := token_run env t1 m
              (CirclesSrc.checkSignerToMainAccount env true t1 a
                (CirclesSrc.checkDirectCirclesProfile env true t1 a c).2.1).2.1 hs.2.1
            have hpD : CirclesSrc.alook (CirclesSrc.checkActiveToken env true t1 m
                (CirclesSrc.checkSignerToMainAccount env true t1 a
                  (CirclesSrc.checkDirectCirclesProfile env true t1 a c).2.1).2.1).2.1.directC a ≠
                none :=
              ht.2.2.1.1 a (hs.2.2.1.1 a hd.2.2.2)
            have hpS : CirclesSrc.alook (CirclesSrc.checkActiveToken env true t1 m
                (CirclesSrc.checkSignerToMainAccount env true t1 a
                  (CirclesSrc.checkDirectCirclesProfile env true t1 a c).2.1).2.1).2.1.signerC a ≠
                none :=
              ht.2.2.1.2.1 a hs.2.2.2
            have hdh := direct_hit env t1 t2 a _ ht.2.1 hpD hf
            have hsh := signer_hit env t1 t2 a _ ht.2.1 hpS hf
            have hth := token_hit env t1 t2 m _ ht.2.1 ht.2.2.2 hf
            simp only [CirclesSrc.checkLoopSrc, hd.1, hs.1, ht.1, hbd, Bool.false_eq_true,
              if_false, hbs, if_true, hma, hm0, hdh, hsh, hth]
            exact ⟨ht.2.1, cacheMono_trans hd.2.2.1 (cacheMono_trans hs.2.2.1 ht.2.2.1), rfl⟩
      · -- neither strategy matches: recurse
        rw [Bool.not_eq_true] at hbs
        have hr := ih (dbg ++ [(⟨a, Circles.directCirclesProfileLookup env a,
            Circles.signerToMainAccountLookup env a⟩ : Circles.AddressCheck)])
          (CirclesSrc.checkSignerToMainAccount env true t1 a
            (CirclesSrc.checkDirectCirclesProfile env true t1 a c).2.1).2.1 hs.2.1
        have hpD : CirclesSrc.alook (CirclesSrc.checkLoopSrc env true t1 rest
            (dbg ++ [(⟨a, Circles.directCirclesProfileLookup env a,
              Circles.signerToMainAccountLookup env a⟩ : Circles.AddressCheck)])
            (CirclesSrc.checkSignerToMainAccount env true t1 a
              (CirclesSrc.checkDirectCirclesProfile env true t1 a c).2.1).2.1).2.1.directC a ≠
            none :=
          hr.2.1.1 a (hs.2.2.1.1 a hd.2.2.2)
        have hpS : CirclesSrc.alook (CirclesSrc.checkLoopSrc env true t1 rest
            (dbg ++ [(⟨a, Circles.directCirclesProfileLookup env a,
              Circles.signerToMainAccountLookup env a⟩ : Circles.AddressCheck)])
            (CirclesSrc.checkSignerToMainAccount env true t1 a
              (CirclesSrc.checkDirectCirclesProfile env true t1 a c).2.1).2.1).2.1.signerC a ≠
            none :=
          hr.2.1.2.1 a hs.2.2.2
        have hdh := direct_hit env t1 t2 a _ hr.1 hpD hf
        have hsh := signer_hit env t1 t2 a _ hr.1 hpS hf
        simp only [CirclesSrc.checkLoopSrc, hd.1, hs.1, hbd, Bool.false_eq_true, if_false,
          hbs, hdh, hsh, hr.2.2]
        exact ⟨hr.1, cacheMono_trans hd.2.2.1 (cacheMono_trans hs.2.2.1 hr.2.1), rfl⟩

theorem cacheInv_empty (env : Circles.Env) (t1 : Int) :
    CirclesSrc.cacheInv env t1 CirclesSrc.emptyCache := by
  refine ⟨?_, ?_, ?_, ?_⟩ <;> · intro x v t hx; simp [CirclesSrc.alook] at hx

/-- C8 (amended): in production builds, resolving the same address twice in
succession within the 24-hour TTL (from a fresh cache) returns an identical
`CirclesResult` and the second resolution issues zero upstream calls; the
viewer trust-edge set behaves the same under its 1-hour TTL. -/
theorem claim8_cache_idempotence (env : Circles.Env) (a viewer : String) (t1 t2 : Int)
    (hf : t2 - t1 < 86400) (hft : t2 - t1 < 3600) :
    (CirclesSrc.checkCirclesStatusWithDebug env true t2 [a]
        (CirclesSrc.checkCirclesStatusWithDebug env true t1 [a]
          CirclesSrc.emptyCache).2.1 =
      ((CirclesSrc.checkCirclesStatusWithDebug env true t1 [a]
          CirclesSrc.emptyCache).1,
        (CirclesSrc.checkCirclesStatusWithDebug env true t1 [a]
          CirclesSrc.emptyCache).2.1, [])) ∧
    (CirclesSrc.getCurrentUserTrusts env true t2 viewer
        (CirclesSrc.getCurrentUserTrusts env true t1 viewer CirclesSrc.emptyCache).2.1 =
      ((CirclesSrc.getCurrentUserTrusts env true t1 viewer CirclesSrc.emptyCache).1,
        (CirclesSrc.getCurrentUserTrusts env true t1 viewer CirclesSrc.emptyCache).2.1,
        [])) := by
  constructor
  · exact (checkLoop_idem env t1 t2 hf [a] [] CirclesSrc.emptyCache
      (cacheInv_empty env t1)).2.2
  · have tr := trust_run env t1 viewer CirclesSrc.emptyCache (cacheInv_empty env t1)
    have hth := trust_hit env t1 t2 viewer _ tr.2.1 tr.2.2.2 hft
    rw [hth, tr.1]

/-- C8 counterexample: in a development build (`NODE_ENV` not `production`)
the lookups are not wrapped in any cache, so an immediately repeated
resolution of the same address issues upstream calls again. -/
theorem claim8_counterexample :
    (CirclesSrc.checkCirclesStatusWithDebug Inputs.env0 false 0 ["0xa"]
        (CirclesSrc.checkCirclesStatusWithDebug Inputs.env0 false 0 ["0xa"]
          CirclesSrc.emptyCache).2.1).2.2 ≠ [] := by
  decide

/-- C8 witness: a production-build double resolution of `0xa` 100 seconds
apart, and a double viewer trust fetch, each served entirely from cache. -/
theorem claim8_witness :
    (CirclesSrc.checkCirclesStatusWithDebug Inputs.env1 true 100 ["0xa"]
        (CirclesSrc.checkCirclesStatusWithDebug Inputs.env1 true 0 ["0xa"]
          CirclesSrc.emptyCache).2.1 =
      ((CirclesSrc.checkCirclesStatusWithDebug Inputs.env1 true 0 ["0xa"]
          CirclesSrc.emptyCache).1,
        (CirclesSrc.checkCirclesStatusWithDebug Inputs.env1 true 0 ["0xa"]
          CirclesSrc.emptyCache).2.1, [])) ∧
    (CirclesSrc.getCurrentUserTrusts Inputs.env1 true 100 "0xv"
        (CirclesSrc.getCurrentUserTrusts Inputs.env1 true 0 "0xv"
          CirclesSrc.emptyCache).2.1 =
      ((CirclesSrc.getCurrentUserTrusts Inputs.env1 true 0 "0xv"
          CirclesSrc.emptyCache).1,
        (CirclesSrc.getCurrentUserTrusts Inputs.env1 true 0 "0xv"
          CirclesSrc.emptyCache).2.1, [])) :=
  claim8_cache_idempotence Inputs.env1 "0xa" "0xv" 0 100 (by decide) (by decide)
